import Mathlib

/-!
# Credit-card statement parser: upload / submit / result workflow

A shallow embedding of the client-side workflow of the repository:

* `constants/index.js`  : `FILE_CONSTRAINTS`, `API_STATUS`
* `utils/helpers.js`    : `validateFile`, `formatAmount`, `formatDate`
* `components/features/upload/FileUpload.jsx` : the upload component's state
  and its handlers
* `pages/HomePage.jsx`  : the controller state, `handleFileSelect`,
  `handleNewUpload` and the conditions under which the view renders each part
* `components/features/results/StatementResults.jsx` : the additional
  information block, the transactions table and its truncation indicator

React state is modelled by explicit state passing: a component's `useState`
cells are the fields of a structure and each handler is a function on it.
What the formatters take from the engine (`parseFloat`, `toLocaleString`,
`Date.parse`, `toLocaleDateString`, `JSON.stringify`) is modelled after ECMA-262
and ECMA-402. A finite double is given by its sign and shortest decimal; the
engine's date parser, time zone, locale data and JSON text layout are
parameters, as is the unit index of `formatFileSize` beyond `1024 ^ 4` bytes.
-/

namespace StatementParser

/-! ## JavaScript values -/

/-- JavaScript values as far as the workflow inspects them: the payloads the
endpoint returns and the error messages the controller stores. A number is
`NaN`, a finite number `num x`, or an infinity `inf` (what the engine reads
from a literal beyond the range of doubles, such as `1e400`). -/
inductive JsVal where
  | undefined : JsVal
  | null : JsVal
  | bool (b : Bool) : JsVal
  | nan : JsVal
  | num (x : Rat) : JsVal
  | inf (negative : Bool) : JsVal
  | str (s : String) : JsVal
  | arr (items : List JsVal) : JsVal
  | obj (props : List (String × JsVal)) : JsVal

namespace JsVal

/-- ToBoolean: `undefined`, `null`, `false`, `NaN`, `0` and `''` are falsy,
every other value (arrays and objects included) is truthy. -/
def truthy : JsVal → Bool
  | undefined => false
  | null => false
  | bool b => b
  | nan => false
  | num x => decide (x ≠ 0)
  | inf _ => true
  | str s => decide (s ≠ "")
  | arr _ => true
  | obj _ => true

/-- Look a key up in an object's property list (the keys of an object are
distinct; the first entry with the key is taken). -/
def lookup (k : String) : List (String × JsVal) → JsVal
  | [] => undefined
  | (k', v) :: rest => if k' = k then v else lookup k rest

/-- Optional property access `v?.k` for the keys the workflow reads
(`response`, `data`, `error`): `undefined` on `null`/`undefined`, the property
of an object, and `undefined` on primitives and arrays, which have no property
of these names. -/
def optGet (v : JsVal) (k : String) : JsVal :=
  match v with
  | obj props => lookup k props
  | _ => undefined

/-- The operator `a || b`: `a` when it is truthy, else `b`. -/
def or (a b : JsVal) : JsVal :=
  if a.truthy then a else b

end JsVal

/-! ## constants/index.js -/

namespace FILE_CONSTRAINTS

/-- The constant `MAX_SIZE: 10 * 1024 * 1024`. -/
def MAX_SIZE : Nat := 10 * 1024 * 1024

/-- The constant `ACCEPTED_TYPES: ['application/pdf']`. -/
def ACCEPTED_TYPES : List String := ["application/pdf"]

/-- The constant `ACCEPTED_EXTENSIONS: ['.pdf']`. -/
def ACCEPTED_EXTENSIONS : List String := [".pdf"]

end FILE_CONSTRAINTS

namespace API_STATUS

/-- The constant `IDLE: 'idle'`. -/
def IDLE : String := "idle"

/-- The constant `LOADING: 'loading'`. -/
def LOADING : String := "loading"

/-- The constant `SUCCESS: 'success'`. -/
def SUCCESS : String := "success"

/-- The constant `ERROR: 'error'`. -/
def ERROR : String := "error"

end API_STATUS

/-! ## utils/helpers.js : validateFile -/

/-- A browser `File` as far as the workflow reads it: `name`, `size` (a byte
count) and `type` (the media type). -/
structure File where
  name : String
  size : Nat
  type : String
deriving DecidableEq, Repr

/-- The object `{ isValid, errors }` returned by `validateFile`. -/
structure Validation where
  isValid : Bool
  errors : List String
deriving DecidableEq, Repr

/-- The local `maxSizeMB = FILE_CONSTRAINTS.MAX_SIZE / 1024 / 1024`. The
quotient is exact (see `maxSizeMB_exact`), so the number the template literal
prints is this integer. -/
def maxSizeMB : Nat := FILE_CONSTRAINTS.MAX_SIZE / 1024 / 1024

/-- The message pushed for an unaccepted media type. -/
def typeError : String := "Only PDF files are supported"

/-- The message pushed for an oversized file: the template literal
`File size must be less than ${maxSizeMB} MB`. -/
def sizeError : String := "File size must be less than " ++ toString maxSizeMB ++ " MB"

/-- The errors pushed by the type check of `validateFile`. -/
def typeErrors (file : File) : List String :=
  if FILE_CONSTRAINTS.ACCEPTED_TYPES.contains file.type then [] else [typeError]

/-- The errors pushed by the size check of `validateFile`. -/
def sizeErrors (file : File) : List String :=
  if file.size > FILE_CONSTRAINTS.MAX_SIZE then [sizeError] else []

/-- The function `validateFile(file)`; `none` is an absent (`null` or
`undefined`) file, the only falsy values a file slot holds. -/
def validateFile : Option File → Validation
  | none => { isValid := false, errors := ["Please select a file"] }
  | some file =>
    let errors := typeErrors file ++ sizeErrors file
    { isValid := errors.length == 0, errors := errors }

/-! ## components/features/upload/FileUpload.jsx -/

/-- The `useState` cells of `FileUpload`: `selectedFile` (initially `null`),
`dragActive` (initially `false`) and `errors` (initially `[]`). -/
structure UploadState where
  selectedFile : Option File
  dragActive : Bool
  errors : List String
deriving DecidableEq, Repr

namespace FileUpload

/-- The state of a freshly mounted `FileUpload`: `useState(null)`,
`useState(false)`, `useState([])`. -/
def initial : UploadState :=
  { selectedFile := none, dragActive := false, errors := [] }

/-- The handler `handleDrag(e)`, on the event's `type`. -/
def handleDrag (type : String) (s : UploadState) : UploadState :=
  if type = "dragenter" ∨ type = "dragover" then { s with dragActive := true }
  else if type = "dragleave" then { s with dragActive := false }
  else s

/-- The handler `handleFileSelection(file)`: validate, then either store the
violations and clear the candidate, or clear the violations and store the
candidate. -/
def handleFileSelection (file : Option File) (s : UploadState) : UploadState :=
  let validation := validateFile file
  if !validation.isValid then
    { s with errors := validation.errors, selectedFile := none }
  else
    { s with errors := [], selectedFile := file }

/-- The handler `handleDrop(e)`, on `e.dataTransfer.files[0]` (`none` when no
file was dropped). -/
def handleDrop (first : Option File) (s : UploadState) : UploadState :=
  let s1 := { s with dragActive := false }
  match first with
  | some f => handleFileSelection (some f) s1
  | none => s1

/-- The handler `handleFileInput(e)`, on `e.target.files[0]` (`none` when the
chooser holds no file). -/
def handleFileInput (first : Option File) (s : UploadState) : UploadState :=
  match first with
  | some f => handleFileSelection (some f) s
  | none => s

/-- The handler `handleRemoveFile()`. -/
def handleRemoveFile (s : UploadState) : UploadState :=
  { s with selectedFile := none, errors := [] }

/-- The handler `handleUpload()`: the result is what `onFileSelect` returns when
it is invoked, and `none` when it is not invoked (no candidate held, or no
callback given). -/
def handleUpload {β : Type} (onFileSelect : Option (File → β)) (s : UploadState) : Option β :=
  match s.selectedFile, onFileSelect with
  | some file, some callback => some (callback file)
  | _, _ => none

/-- The view renders the submit button ("Parse Statement") and the remove button
only in the branch where `selectedFile` is set. -/
def rendersSubmit (s : UploadState) : Bool := s.selectedFile.isSome

/-- The events the upload component receives. -/
inductive Event where
  | drag (type : String)
  | drop (first : Option File)
  | fileInput (first : Option File)
  | fileSelection (file : Option File)
  | removeFile
deriving DecidableEq, Repr

/-- One event applied to the upload component's state. -/
def apply (s : UploadState) : Event → UploadState
  | .drag type => handleDrag type s
  | .drop first => handleDrop first s
  | .fileInput first => handleFileInput first s
  | .fileSelection file => handleFileSelection file s
  | .removeFile => handleRemoveFile s

/-- The state after a sequence of events, from a given state. -/
def run (s : UploadState) (events : List Event) : UploadState :=
  events.foldl apply s

/-- The upload-component states reachable from a fresh mount. -/
def Reachable (s : UploadState) : Prop :=
  ∃ events : List Event, run initial events = s

end FileUpload

/-! ## pages/HomePage.jsx -/

/-- The `useState` cells of `HomePage`: `apiStatus`, `parsedData`, `error`. -/
structure HomeState where
  apiStatus : String
  parsedData : JsVal
  error : JsVal

/-- The value `parseStatement` rejects with: an error object whose `response`
property is the HTTP response when one arrived and `undefined` otherwise. -/
structure ApiError where
  response : JsVal

namespace HomePage

/-- The state of a freshly mounted `HomePage`: `useState(API_STATUS.IDLE)`,
`useState(null)`, `useState(null)`. -/
def initial : HomeState :=
  { apiStatus := API_STATUS.IDLE, parsedData := JsVal.null, error := JsVal.null }

/-- The generic message used when the failure carries none. -/
def fallbackMessage : JsVal := JsVal.str "Failed to parse statement"

/-- The expression `err.response?.data?.error`. -/
def backendMessage (err : ApiError) : JsVal :=
  (err.response.optGet "data").optGet "error"

/-- The local `errorMessage = err.response?.data?.error || 'Failed to parse
statement'` of the `catch` branch. -/
def errorMessage (err : ApiError) : JsVal :=
  (backendMessage err).or fallbackMessage

/-- The part of `handleFileSelect(file)` that runs before the `await`:
`setApiStatus(LOADING); setError(null)`. -/
def handleFileSelect_start (s : HomeState) : HomeState :=
  { s with apiStatus := API_STATUS.LOADING, error := JsVal.null }

/-- The continuation of `handleFileSelect` when `parseStatement` resolves with
`data`: `setApiStatus(SUCCESS); setParsedData(data)`. -/
def handleFileSelect_resolved (data : JsVal) (s : HomeState) : HomeState :=
  { s with apiStatus := API_STATUS.SUCCESS, parsedData := data }

/-- The `catch` branch of `handleFileSelect` when `parseStatement` rejects
with `err`: `setApiStatus(ERROR); setError(errorMessage)`. -/
def handleFileSelect_rejected (err : ApiError) (s : HomeState) : HomeState :=
  { s with apiStatus := API_STATUS.ERROR, error := errorMessage err }

/-- The handler `handleNewUpload()`. -/
def handleNewUpload (_s : HomeState) : HomeState :=
  { apiStatus := API_STATUS.IDLE, parsedData := JsVal.null, error := JsVal.null }

/-- The view renders `FileUpload` under `apiStatus === API_STATUS.IDLE`. -/
def rendersFileUpload (s : HomeState) : Bool :=
  s.apiStatus == API_STATUS.IDLE

/-- The view renders the loader card under `apiStatus === API_STATUS.LOADING`. -/
def rendersLoader (s : HomeState) : Bool :=
  s.apiStatus == API_STATUS.LOADING

/-- The view renders the error card, with its "Try another file" button bound
to `handleNewUpload`, under `apiStatus === API_STATUS.ERROR && error`. -/
def rendersErrorCard (s : HomeState) : Bool :=
  s.apiStatus == API_STATUS.ERROR && s.error.truthy

/-- The view renders `StatementResults`, with `onNewUpload` bound to
`handleNewUpload`, under `apiStatus === API_STATUS.SUCCESS && parsedData`. -/
def rendersResults (s : HomeState) : Bool :=
  s.apiStatus == API_STATUS.SUCCESS && s.parsedData.truthy

/-- Whether the view offers the new-upload action. -/
def offersNewUpload (s : HomeState) : Bool :=
  rendersErrorCard s || rendersResults s

end HomePage

/-! ## The page as a whole: controller, mounted upload component, open calls -/

/-- The page's state: the controller's cells, the state of the `FileUpload`
instance when one is mounted (`none` when the view does not render it), and the
files of the `parseStatement` calls that have been started and have not settled
yet, oldest first. -/
structure AppState where
  home : HomeState
  upload : Option UploadState
  pending : List File

namespace App

/-- The page after its first render: the controller is idle, so `FileUpload` is
mounted with fresh state, and no call is open. -/
def initial : AppState :=
  { home := HomePage.initial, upload := some FileUpload.initial, pending := [] }

/-- The `FileUpload` slot after a render with controller state `home`: the
component is rendered under `apiStatus === IDLE` only; an instance that was
mounted before keeps its state, one that was not is mounted with fresh state,
and it is unmounted (its state dropped) when the condition fails. -/
def mountUpload (prev : Option UploadState) (home : HomeState) : Option UploadState :=
  if HomePage.rendersFileUpload home then some (prev.getD FileUpload.initial) else none

/-- Store a new controller state and re-render. -/
def setHome (a : AppState) (home : HomeState) : AppState :=
  { a with home := home, upload := mountUpload a.upload home }

/-- The call `handleFileSelect(file)` up to its `await`: the controller goes to
loading and a `parseStatement(file)` call is opened. -/
def handleFileSelect (file : File) (a : AppState) : AppState :=
  { setHome a (HomePage.handleFileSelect_start a.home) with pending := a.pending ++ [file] }

/-- The open call number `i` resolves with `data`: its continuation runs. -/
def resolved (i : Nat) (data : JsVal) (a : AppState) : AppState :=
  { setHome a (HomePage.handleFileSelect_resolved data a.home) with
    pending := a.pending.eraseIdx i }

/-- The open call number `i` rejects with `err`: its `catch` branch runs. -/
def rejected (i : Nat) (err : ApiError) (a : AppState) : AppState :=
  { setHome a (HomePage.handleFileSelect_rejected err a.home) with
    pending := a.pending.eraseIdx i }

/-- The handler `handleNewUpload()` followed by the re-render. -/
def handleNewUpload (a : AppState) : AppState :=
  setHome a (HomePage.handleNewUpload a.home)

/-- What can happen to the page: an event on the mounted upload component, a
click on its submit button, the settling of an open call, and a click on a
new-upload button. -/
inductive Event where
  | upload (e : FileUpload.Event)
  | submit
  | resolve (i : Nat) (data : JsVal)
  | reject (i : Nat) (err : ApiError)
  | newUpload

/-- One event applied to the page; `none` when the view does not offer the
event in that state (the component or button is not rendered, or there is no
such open call). -/
def step (a : AppState) : Event → Option AppState
  | .upload e =>
    match a.upload with
    | some u => some { a with upload := some (FileUpload.apply u e) }
    | none => none
  | .submit =>
    match a.upload with
    | some u =>
      if FileUpload.rendersSubmit u then
        FileUpload.handleUpload (some (fun file => handleFileSelect file a)) u
      else none
    | none => none
  | .resolve i data => if i < a.pending.length then some (resolved i data a) else none
  | .reject i err => if i < a.pending.length then some (rejected i err a) else none
  | .newUpload => if HomePage.offersNewUpload a.home then some (handleNewUpload a) else none

/-- A sequence of events applied to the page, `none` as soon as one of them is
not offered. -/
def run (a : AppState) : List Event → Option AppState
  | [] => some a
  | e :: es => (step a e).bind (fun b => run b es)

/-- The page states reachable from the first render. -/
def Reachable (a : AppState) : Prop :=
  ∃ events : List Event, run initial events = some a

end App

/-! ## utils/helpers.js : formatAmount -/

/-- A JavaScript number: `NaN`, an infinity, or a finite double. A finite double
is given by its sign and its shortest round-trip decimal `mantissa * 10 ^
exponent`, the decimal from which `Number.prototype.toString` and the locale
formatter print it; negative zero is `finite true 0 0`. -/
inductive JsNumber where
  | nan : JsNumber
  | infinity (negative : Bool) : JsNumber
  | finite (negative : Bool) (mantissa : Nat) (exponent : Int) : JsNumber
deriving DecidableEq

/-- The argument of `formatAmount` as a response gives it: `null`, `undefined`,
a number or a string. -/
inductive Amount where
  | null : Amount
  | undefined : Amount
  | number (n : JsNumber) : Amount
  | string (s : String) : Amount
deriving DecidableEq

/-- The amount a field of a response holds, when it is one of the values
`Amount` models: `null`, `undefined`, `NaN`, a string, or a number that is a
decimal with at most two fractional digits and fifteen significant digits (such
a decimal is the shortest decimal of its double). A boolean, an array, an
object or another number is not. -/
def Amount.ofJsVal : JsVal → Option Amount
  | JsVal.null => some Amount.null
  | JsVal.undefined => some Amount.undefined
  | JsVal.nan => some (Amount.number JsNumber.nan)
  | JsVal.num x =>
    if x.den ∣ 100 ∧ x.num.natAbs * (100 / x.den) < 10 ^ 15 then
      some (Amount.number
        (JsNumber.finite (decide (x < 0)) (x.num.natAbs * (100 / x.den)) (-2)))
    else none
  | JsVal.str s => some (Amount.string s)
  | _ => none

namespace Number

/-- The two characters of `n` modulo 100 in decimal, with a leading zero. -/
def twoDigits (n : Nat) : List Char :=
  [Nat.digitChar (n / 10 % 10), Nat.digitChar (n % 10)]

/-- Grouping in pairs, on digits listed from the least significant: a comma
before every pair (the last group may be a single digit). -/
def pairsRev : List Char → List Char
  | [] => []
  | [a] => [',', a]
  | a :: b :: rest => ',' :: a :: b :: pairsRev rest

/-- The grouping of the locale `en-IN` on digits listed from the least
significant: the first three digits form a group, the rest is grouped in
pairs. -/
def groupRev (r : List Char) : List Char :=
  r.take 3 ++ pairsRev (r.drop 3)

/-- The grouping of the locale `en-IN` (pattern `#,##,##0`): the last three
digits form a group, the digits before them are grouped in pairs. -/
def groupIndian (ds : List Char) : List Char :=
  (groupRev ds.reverse).reverse

/-- The hundredths in `m * 10 ^ e`, a half being rounded up:
`⌊m * 10 ^ (e + 2) + 1/2⌋`. -/
def roundedHundredths (m : Nat) (e : Int) : Nat :=
  match e + 2 with
  | Int.ofNat n => m * 10 ^ n
  | Int.negSucc k => (2 * m + 10 ^ (k + 1)) / (2 * 10 ^ (k + 1))

/-- The text of a finite number with exactly two fractional digits and `en-IN`
grouping: sign, grouped integer digits, a point, two digits. -/
def fixed2 (negative : Bool) (m : Nat) (e : Int) : List Char :=
  (if negative then ['-'] else []) ++
    groupIndian (Nat.toDigits 10 (roundedHundredths m e / 100)) ++
    '.' :: twoDigits (roundedHundredths m e)

/-- The call `n.toLocaleString('en-IN', { minimumFractionDigits: 2,
maximumFractionDigits: 2 })` on a number. It does not throw. -/
def toLocaleString : JsNumber → String
  | JsNumber.nan => "NaN"
  | JsNumber.infinity false => "∞"
  | JsNumber.infinity true => "-∞"
  | JsNumber.finite negative m e => String.mk (fixed2 negative m e)

/-- The white space `parseFloat` skips at the start of its argument. -/
def isStrWhiteSpace (c : Char) : Bool :=
  c.val = 0x09 || c.val = 0x0A || c.val = 0x0B || c.val = 0x0C || c.val = 0x0D ||
  c.val = 0x20 || c.val = 0xA0 || c.val = 0x1680 || (0x2000 ≤ c.val && c.val ≤ 0x200A) ||
  c.val = 0x2028 || c.val = 0x2029 || c.val = 0x202F || c.val = 0x205F || c.val = 0x3000 ||
  c.val = 0xFEFF

/-- The value of a sequence of decimal digits. -/
def digitsValue (ds : List Char) : Nat :=
  ds.foldl (fun acc c => 10 * acc + (c.toNat - '0'.toNat)) 0

/-- The exponent part at the head of `cs`: `e` or `E`, an optional sign and at
least one digit; `0` when there is none. -/
def exponentValue (cs : List Char) : Int :=
  match cs with
  | c :: rest =>
    if c = 'e' ∨ c = 'E' then
      match rest with
      | '-' :: ds =>
        if (ds.takeWhile Char.isDigit).isEmpty then 0
        else - (digitsValue (ds.takeWhile Char.isDigit) : Int)
      | '+' :: ds => (digitsValue (ds.takeWhile Char.isDigit) : Int)
      | ds => (digitsValue (ds.takeWhile Char.isDigit) : Int)
    else 0
  | [] => 0

/-- The number a decimal literal denotes: mantissa digits `m`, `f` of them after
the point, exponent `e`. With a mantissa below `10 ^ 15` and a decimal exponent
within 290 of zero the literal is the shortest decimal of the double it rounds
to; other literals are outside the model (`none`). -/
def literalValue (negative : Bool) (m : Nat) (f : Nat) (e : Int) : Option JsNumber :=
  if m < 10 ^ 15 ∧ -290 ≤ e - (f : Int) ∧ e - (f : Int) ≤ 290 then
    some (JsNumber.finite negative m (e - (f : Int)))
  else none

/-- The unsigned part of `parseFloat`: the longest prefix of `cs` that is
`Infinity` or a decimal literal (digits, an optional point and digits, an
optional exponent), `NaN` when there is none. -/
def parseUnsigned (negative : Bool) (cs : List Char) : Option JsNumber :=
  if "Infinity".toList.isPrefixOf cs then some (JsNumber.infinity negative)
  else
    let intDigits := cs.takeWhile Char.isDigit
    let afterInt := cs.dropWhile Char.isDigit
    let fracDigits :=
      match afterInt with
      | '.' :: rest => rest.takeWhile Char.isDigit
      | _ => []
    let afterFrac :=
      match afterInt with
      | '.' :: rest => rest.dropWhile Char.isDigit
      | _ => afterInt
    if intDigits.isEmpty && fracDigits.isEmpty then some JsNumber.nan
    else
      literalValue negative (digitsValue (intDigits ++ fracDigits)) fracDigits.length
        (exponentValue afterFrac)

/-- The function `parseFloat(s)`: skip leading white space, read an optional
sign, then the longest numeric prefix. It does not throw; `none` is a literal
outside the model. -/
def parseFloat (s : String) : Option JsNumber :=
  match s.toList.dropWhile isStrWhiteSpace with
  | '-' :: rest => parseUnsigned true rest
  | '+' :: rest => parseUnsigned false rest
  | cs => parseUnsigned false cs

end Number

/-- The function `formatAmount(amount)`; `none` is a string whose number is
outside the model. The `try` body cannot throw on these arguments (`parseFloat`
and `Number.prototype.toLocaleString` do not), so the `catch` branch, which
would return the currency sign followed by the argument as given, is never
entered. -/
def formatAmount : Amount → Option String
  | Amount.null => some "₹0.00"
  | Amount.undefined => some "₹0.00"
  | Amount.string s => (Number.parseFloat s).map (fun n => "₹" ++ Number.toLocaleString n)
  | Amount.number n => some ("₹" ++ Number.toLocaleString n)

/-! ## utils/helpers.js : formatDate -/

/-- A calendar date: year, month (1 to 12) and day of the month. -/
structure CalendarDate where
  year : Int
  month : Nat
  day : Nat
deriving DecidableEq, Repr

/-- What `formatDate` takes from the JavaScript engine and its environment:
`Date.parse` (the time value in milliseconds, `none` for `NaN`; the formats
accepted beyond ISO 8601 are the engine's choice), the calendar date of a time
value in the local time zone, and the locale data of `en-IN` (the abbreviated
month names and the text between the fields). -/
structure DateRuntime where
  parse : String → Option Int
  localDate : Int → CalendarDate
  monthShort : Nat → String
  separator : String

/-- The argument of `formatDate` as a response gives it: `null`, `undefined` or
a string. -/
inductive DateArg where
  | null : DateArg
  | undefined : DateArg
  | string (s : String) : DateArg

/-- The date a field of a response holds, when it is one of the values `DateArg`
models. -/
def DateArg.ofJsVal : JsVal → Option DateArg
  | JsVal.null => some DateArg.null
  | JsVal.undefined => some DateArg.undefined
  | JsVal.str s => some (DateArg.string s)
  | _ => none

/-- The call `date.toLocaleDateString('en-IN', { day: '2-digit', month: 'short',
year: 'numeric' })` on the date with time value `t`: the text `Invalid Date`
when the time value is `NaN`, else day, abbreviated month and year. It does not
throw. -/
def toLocaleDateString (rt : DateRuntime) (t : Option Int) : String :=
  match t with
  | none => "Invalid Date"
  | some ms =>
    String.mk (Number.twoDigits (rt.localDate ms).day) ++ rt.separator ++
      rt.monthShort (rt.localDate ms).month ++ rt.separator ++
      toString (rt.localDate ms).year

/-- The function `formatDate(dateString)`: `N/A` for a falsy argument, else the
text of `new Date(dateString)`. The `try` body cannot throw on these arguments,
so the `catch` branch, which would return the argument as given, is never
entered. -/
def formatDate (rt : DateRuntime) : DateArg → String
  | DateArg.null => "N/A"
  | DateArg.undefined => "N/A"
  | DateArg.string s => if s = "" then "N/A" else toLocaleDateString rt (rt.parse s)

/-! ## components/features/results/StatementResults.jsx -/

namespace StatementResults

/-- The value of `data.creditLimit || data.availableCredit ||
data.minimumAmountDue`. -/
def additionalInfoGuard (data : JsVal) : JsVal :=
  ((data.optGet "creditLimit").or (data.optGet "availableCredit")).or
    (data.optGet "minimumAmountDue")

/-- Whether the "Additional Information" card is rendered: the guard of
`{(...) && (<Card>...</Card>)}` is truthy. -/
def showsAdditionalInfo (data : JsVal) : Bool :=
  (additionalInfoGuard data).truthy

/-- What a slot `{guard && <Card/>}` puts on the page: the card, a text, or
nothing. -/
inductive Slot where
  | card : Slot
  | text (s : String) : Slot
  | nothing : Slot
deriving DecidableEq, Repr

/-- The slot of the "Additional Information" card: the card for a truthy guard;
for a falsy guard the guard's own value, of which `0` and `NaN` are rendered as
text and `undefined`, `null`, `false` and `''` are not rendered. -/
def additionalInfoSlot (data : JsVal) : Slot :=
  if (additionalInfoGuard data).truthy then Slot.card
  else
    match additionalInfoGuard data with
    | JsVal.num _ => Slot.text "0"
    | JsVal.nan => Slot.text "NaN"
    | _ => Slot.nothing

/-- A field is present when it is neither `null` nor `undefined` (the test
`formatAmount` makes on its argument). -/
def isPresent : JsVal → Bool
  | JsVal.null => false
  | JsVal.undefined => false
  | _ => true

/-- The cells of one row of the transactions table: `formatDate(
txn.transactionDate)`, `txn.description || txn.merchantName || 'N/A'` and
`formatAmount(txn.amount)`. A formatted cell is `none` when the field holds a
value outside `DateArg` or `Amount`. -/
structure Row where
  date : Option String
  description : JsVal
  amount : Option String

/-- The callback of `map` on the transaction `txn`: the row built from it. The
fields are read by plain member access, which throws a `TypeError` when `txn`
is `null` or `undefined`: `none`. -/
def txnRow (rt : DateRuntime) (txn : JsVal) : Option Row :=
  match txn with
  | JsVal.null => none
  | JsVal.undefined => none
  | _ =>
    some
      { date := (DateArg.ofJsVal (txn.optGet "transactionDate")).map (formatDate rt),
        description :=
          ((txn.optGet "description").or (txn.optGet "merchantName")).or (JsVal.str "N/A"),
        amount := (Amount.ofJsVal (txn.optGet "amount")).bind formatAmount }

/-- The rows of the table, `data.transactions.slice(0, 10).map(...)`: the
outcome of the callback on each of the first ten entries. A `none` is an entry
on which the callback throws, and the render of the results view with it. -/
def tableRows (rt : DateRuntime) (transactions : List JsVal) : List (Option Row) :=
  (transactions.take 10).map (txnRow rt)

/-- A piece of the content of an element: literal text or an interpolated
number. -/
inductive Fragment where
  | text (s : String) : Fragment
  | number (n : Nat) : Fragment
deriving DecidableEq, Repr

/-- The text React renders for a list of fragments. -/
def Fragment.render (fs : List Fragment) : String :=
  String.join (fs.map (fun f => match f with
    | Fragment.text s => s
    | Fragment.number n => toString n))

/-- The truncation indicator `{data.transactions.length > 10 && (<p>Showing 10
of {data.transactions.length} transactions</p>)}`: its content, `none` when it
is not rendered. -/
def truncationNote (transactions : List JsVal) : Option (List Fragment) :=
  if transactions.length > 10 then
    some [Fragment.text "Showing 10 of ", Fragment.number transactions.length,
      Fragment.text " transactions"]
  else none

/-- The transactions card: heading, rows and truncation indicator. -/
structure TransactionsCard where
  heading : List Fragment
  rows : List (Option Row)
  note : Option (List Fragment)

/-- The slot `{data.transactions && data.transactions.length > 0 && (<Card>...
</Card>)}` for `transactions` an array or absent, as in a response: the card
when the array is not empty, `none` when nothing is rendered. (Of the other
values, numbers, booleans and objects without a `length` render nothing as
well; a non-empty string makes the render throw.) -/
def transactionsCard (rt : DateRuntime) (data : JsVal) : Option TransactionsCard :=
  match data.optGet "transactions" with
  | JsVal.arr items =>
    if items.length > 0 then
      some { heading := [Fragment.text "Recent Transactions (", Fragment.number items.length,
                          Fragment.text ")"],
             rows := tableRows rt items,
             note := truncationNote items }
    else none
  | _ => none

end StatementResults

/-! ## utils/helpers.js : formatFileSize -/

/-- The text of a non-negative number with at most two fractional digits, given
by its hundredths `r` (`Number.prototype.toString` on `r / 100`): the integer
digits, then, when the fraction is not zero, a point and the fractional digits
without a trailing zero. -/
def Number.hundredthsToString (r : Nat) : String :=
  String.mk (Nat.toDigits 10 (r / 100) ++
    (if r % 100 = 0 then []
     else if r % 10 = 0 then ['.', Nat.digitChar (r / 10 % 10)]
     else '.' :: Number.twoDigits r))

/-- The local `k = 1024`. -/
def formatFileSize.k : Nat := 1024

/-- The local `sizes = ['Bytes', 'KB', 'MB', 'GB']`. -/
def formatFileSize.sizes : List String := ["Bytes", "KB", "MB", "GB"]

/-- The local `i = Math.floor(Math.log(bytes) / Math.log(k))`. Up to `1024 ^ 4`
bytes the double-precision quotient has the floor of the exact one, the largest
`i` with `k ^ i ≤ bytes`; above that it may differ from it, and the value is
what the engine computes, `engineIndex bytes`. -/
def formatFileSize.unitIndex (engineIndex : Nat → Nat) (bytes : Nat) : Nat :=
  if bytes ≤ 1024 ^ 4 then Nat.log formatFileSize.k bytes else engineIndex bytes

/-- The value `Math.round(bytes / Math.pow(k, i) * 100)`: the hundredths in
`bytes / k ^ i`, a half being rounded up. -/
def formatFileSize.roundedHundredths (bytes i : Nat) : Nat :=
  (2 * (bytes * 100) + formatFileSize.k ^ i) / (2 * formatFileSize.k ^ i)

/-- The text `sizes[i]` contributes to the concatenation: the unit name, or
`undefined` when `i` is outside the table. -/
def formatFileSize.unitText (i : Nat) : String :=
  (formatFileSize.sizes.get? i).getD "undefined"

/-- The function `formatFileSize(bytes)` on a byte count. -/
def formatFileSize (engineIndex : Nat → Nat) (bytes : Nat) : String :=
  if bytes = 0 then "0 Bytes"
  else
    Number.hundredthsToString
        (formatFileSize.roundedHundredths bytes
          (formatFileSize.unitIndex engineIndex bytes)) ++
      " " ++ formatFileSize.unitText (formatFileSize.unitIndex engineIndex bytes)

/-! ## services/api.js -/

namespace Api

/-- The default base URL written in `services/api.js`. -/
def defaultBaseURL : String := "http://localhost:8080/api/statements"

/-- The constant `API_BASE_URL = import.meta.env.VITE_API_BASE_URL ||
'http://localhost:8080/api/statements'`; the variable is a string when the
environment supplies it and `undefined` (`none`) when it does not. -/
def API_BASE_URL (env : Option String) : String :=
  match env with
  | some value => if value = "" then defaultBaseURL else value
  | none => defaultBaseURL

/-- The configuration of the axios instance as far as the requests depend on
it. -/
structure Config where
  baseURL : String
  timeout : Nat
deriving DecidableEq, Repr

/-- The instance `api = axios.create({ baseURL: 'http://localhost:8080/api/
statements', timeout: 30000, ... })`, in an environment `env`. -/
def api (_env : Option String) : Config :=
  { baseURL := "http://localhost:8080/api/statements", timeout := 30000 }

/-- How axios joins the base URL and a relative path: the base without a
trailing slash, a slash, the path without leading slashes. -/
def combineURLs (baseURL path : String) : String :=
  String.mk ((baseURL.toList.reverse.dropWhile (fun c => c = '/')).reverse ++
    '/' :: path.toList.dropWhile (fun c => c = '/'))

/-- The URL of `api.post('/parse', ...)` in `parseStatement`. -/
def parseURL (env : Option String) : String := combineURLs (api env).baseURL "/parse"

/-- The URL of `api.post('/debug', ...)` in `debugPDF`. -/
def debugURL (env : Option String) : String := combineURLs (api env).baseURL "/debug"

/-- The URL of `api.get('/health')` in `healthCheck`. -/
def healthURL (env : Option String) : String := combineURLs (api env).baseURL "/health"

end Api

/-! ## Export: JSON.stringify -/

/-- What the export takes from the engine: `render`, the text `JSON.stringify(v,
null, 2)` lays out for a value JSON can carry (number and string formats,
indentation), and `JSON.parse`. -/
structure JsonRuntime where
  render : JsVal → String
  parse : String → Option JsVal

namespace Json

mutual

/-- The value `JSON.stringify` writes in place of `v`: `NaN` and the infinities
are written as `null`, an `undefined` array element as `null`, and a property
whose value is `undefined` is left out. -/
def image : JsVal → JsVal
  | JsVal.undefined => JsVal.undefined
  | JsVal.null => JsVal.null
  | JsVal.bool b => JsVal.bool b
  | JsVal.nan => JsVal.null
  | JsVal.num x => JsVal.num x
  | JsVal.inf _ => JsVal.null
  | JsVal.str s => JsVal.str s
  | JsVal.arr items => JsVal.arr (imageItems items)
  | JsVal.obj props => JsVal.obj (imageProps props)

/-- The elements of an array as `JSON.stringify` writes them. -/
def imageItems : List JsVal → List JsVal
  | [] => []
  | JsVal.undefined :: rest => JsVal.null :: imageItems rest
  | v :: rest => image v :: imageItems rest

/-- The properties of an object as `JSON.stringify` writes them. -/
def imageProps : List (String × JsVal) → List (String × JsVal)
  | [] => []
  | (_, JsVal.undefined) :: rest => imageProps rest
  | (k, v) :: rest => (k, image v) :: imageProps rest

end

/-- The text `JSON.stringify(data, null, 2)` of a value other than
`undefined`. -/
def stringify (rt : JsonRuntime) (data : JsVal) : String :=
  rt.render (image data)

end Json

/-- The text `handleCopy` passes to the clipboard:
`copyToClipboard(JSON.stringify(data, null, 2))`. -/
def StatementResults.handleCopyText (rt : JsonRuntime) (data : JsVal) : String :=
  Json.stringify rt data

/-- The content of the file `handleDownload` offers through `downloadJSON(data,
filename)`: `new Blob([JSON.stringify(data, null, 2)])`. -/
def StatementResults.downloadJSONContent (rt : JsonRuntime) (data : JsVal) : String :=
  Json.stringify rt data

/-! ## Sample values -/

namespace Examples

/-- A small PDF statement. -/
def statementPdf : File :=
  { name := "statement.pdf", size := 204800, type := "application/pdf" }

/-- A second PDF statement. -/
def otherPdf : File :=
  { name := "october.pdf", size := 1048576, type := "application/pdf" }

/-- A success payload of the parse endpoint. -/
def statementData : JsVal :=
  JsVal.obj [("issuerName", JsVal.str "HDFC Bank"), ("cardLastFourDigits", JsVal.str "1234"),
    ("totalAmountDue", JsVal.num 4500)]

/-- A failure without a response (the request never reached the backend). -/
def networkError : ApiError := { response := JsVal.undefined }

/-- The upload component holding `statementPdf`. -/
def holdingPdf : UploadState :=
  { selectedFile := some statementPdf, dragActive := false, errors := [] }

/-- The idle page with `statementPdf` selected. -/
def idleHoldingPdf : AppState :=
  { home := HomePage.initial, upload := some holdingPdf, pending := [] }

/-- The page while the call for `statementPdf` is open. -/
def loadingPage : AppState :=
  { home := { apiStatus := "loading", parsedData := JsVal.null, error := JsVal.null },
    upload := none, pending := [statementPdf] }

/-- The page after the call for `statementPdf` failed without a response. -/
def failedPage : AppState :=
  { home := { apiStatus := "error", parsedData := JsVal.null,
              error := JsVal.str "Failed to parse statement" },
    upload := none, pending := [] }

end Examples

namespace Examples

/-- Whether a year of the Gregorian calendar is a leap year. -/
def isLeapYear (y : Nat) : Bool :=
  (y % 4 = 0 && y % 100 ≠ 0) || y % 400 = 0

/-- The number of days of a month. -/
def daysInMonth (y m : Nat) : Nat :=
  if m = 2 then (if isLeapYear y then 29 else 28)
  else if m = 4 ∨ m = 6 ∨ m = 9 ∨ m = 11 then 30
  else 31

/-- Days from 1970-01-01 to the given date of the Gregorian calendar. -/
def daysFromCivil (y m d : Nat) : Int :=
  let y1 : Int := if m ≤ 2 then (y : Int) - 1 else (y : Int)
  let era : Int := Int.fdiv y1 400
  let yoe : Int := y1 - era * 400
  let mp : Int := if m ≤ 2 then (m : Int) + 9 else (m : Int) - 3
  let doy : Int := Int.fdiv (153 * mp + 2) 5 + (d : Int) - 1
  let doe : Int := yoe * 365 + Int.fdiv yoe 4 - Int.fdiv yoe 100 + doy
  era * 146097 + doe - 719468

/-- The date of the Gregorian calendar a number of days after 1970-01-01. -/
def civilFromDays (z : Int) : CalendarDate :=
  let z1 : Int := z + 719468
  let era : Int := Int.fdiv z1 146097
  let doe : Nat := (z1 - era * 146097).toNat
  let yoe : Nat := (doe - doe / 1460 + doe / 36524 - doe / 146096) / 365
  let doy : Nat := doe - (365 * yoe + yoe / 4 - yoe / 100)
  let mp : Nat := (5 * doy + 2) / 153
  let m : Nat := if mp < 10 then mp + 3 else mp - 9
  { year := (yoe : Int) + era * 400 + (if m ≤ 2 then 1 else 0),
    month := m,
    day := doy - (153 * mp + 2) / 5 + 1 }

/-- A date parser that reads the ISO 8601 date form `YYYY-MM-DD` only, as UTC
midnight. -/
def isoDateParse (s : String) : Option Int :=
  match s.toList with
  | [y1, y2, y3, y4, '-', m1, m2, '-', d1, d2] =>
    if [y1, y2, y3, y4, m1, m2, d1, d2].all Char.isDigit then
      let y := Number.digitsValue [y1, y2, y3, y4]
      let m := Number.digitsValue [m1, m2]
      let d := Number.digitsValue [d1, d2]
      if 1 ≤ m ∧ m ≤ 12 ∧ 1 ≤ d ∧ d ≤ daysInMonth y m then
        some (daysFromCivil y m d * 86400000)
      else none
    else none
  | _ => none

/-- The abbreviated month names of `en-IN`. -/
def monthShort (m : Nat) : String :=
  (["Jan", "Feb", "Mar", "Apr", "May", "Jun", "Jul", "Aug", "Sept", "Oct", "Nov", "Dec"].get?
    (m - 1)).getD ""

/-- A sample runtime: the time zone is UTC, the parser reads `YYYY-MM-DD`, the
fields are separated by a blank. -/
def utcRuntime : DateRuntime :=
  { parse := isoDateParse,
    localDate := fun ms => civilFromDays (Int.fdiv ms 86400000),
    monthShort := monthShort,
    separator := " " }

/-- The transaction number `i` of a sample statement. -/
def transaction (i : Nat) : JsVal :=
  JsVal.obj [("transactionDate", JsVal.str "2025-10-10"),
    ("description", JsVal.str ("Purchase " ++ toString i)),
    ("amount", JsVal.num (100 * (i : Rat) + 1 / 2))]

/-- Fifteen transactions. -/
def fifteenTransactions : List JsVal :=
  (List.range 15).map transaction

/-- A success payload with fifteen transactions. -/
def longStatement : JsVal :=
  JsVal.obj [("issuerName", JsVal.str "HDFC Bank"), ("transactions", JsVal.arr fifteenTransactions)]

/-- A success payload whose three additional amounts are all present and zero. -/
def zeroAmounts : JsVal :=
  JsVal.obj [("issuerName", JsVal.str "HDFC Bank"), ("creditLimit", JsVal.num 0),
    ("availableCredit", JsVal.num 0), ("minimumAmountDue", JsVal.num 0)]

/-- The page after the call for `statementPdf` resolved with the payload
`null`. -/
def emptySuccessPage : AppState :=
  { home := { apiStatus := "success", parsedData := JsVal.null, error := JsVal.null },
    upload := none, pending := [] }

end Examples

namespace Examples

/-- A success payload whose credit limit was sent as the literal `1e400` and
read as an infinity. -/
def infiniteLimit : JsVal :=
  JsVal.obj [("issuerName", JsVal.str "HDFC Bank"), ("creditLimit", JsVal.inf false)]

/-- The same payload with `null` for the credit limit. -/
def nullLimit : JsVal :=
  JsVal.obj [("issuerName", JsVal.str "HDFC Bank"), ("creditLimit", JsVal.null)]

/-- A sample JSON runtime that knows one document, the text of `longStatement`. -/
def oneDocumentJson : JsonRuntime :=
  { render := fun _ => "statement",
    parse := fun text => if text = "statement" then some longStatement else none }

end Examples

/-! ## Invariants -/

/-- The candidate held by the upload component, if any, passes `validateFile`. -/
def FileUpload.HoldsValid (s : UploadState) : Prop :=
  ∀ f : File, s.selectedFile = some f → (validateFile (some f)).isValid = true

/-- The shape of the page in each of the four statuses: idle with nothing
stored, no open call and the upload component mounted; loading with nothing
stored, the upload component unmounted and exactly one open call, for a valid
file; success with no error stored; error with a truthy message and no result
stored; and no open call in the last two. -/
def App.Inv (a : AppState) : Prop :=
  (a.home.apiStatus = API_STATUS.IDLE ∧ a.home.parsedData = JsVal.null ∧
    a.home.error = JsVal.null ∧ a.pending = [] ∧
    ∃ u, a.upload = some u ∧ FileUpload.Reachable u) ∨
  (a.home.apiStatus = API_STATUS.LOADING ∧ a.home.parsedData = JsVal.null ∧
    a.home.error = JsVal.null ∧ a.upload = none ∧
    ∃ f, a.pending = [f] ∧ (validateFile (some f)).isValid = true) ∨
  (a.home.apiStatus = API_STATUS.SUCCESS ∧ a.home.error = JsVal.null ∧
    a.pending = [] ∧ a.upload = none) ∨
  (a.home.apiStatus = API_STATUS.ERROR ∧ a.home.parsedData = JsVal.null ∧
    a.home.error.truthy = true ∧ a.pending = [] ∧ a.upload = none)

/-! ## Validator: `validateFile` -/

/-- The quotient `MAX_SIZE / 1024 / 1024` is exact and equals 10. -/
theorem maxSizeMB_exact :
    maxSizeMB = 10 ∧ maxSizeMB * 1024 * 1024 = FILE_CONSTRAINTS.MAX_SIZE := by
  decide

/-- The size message reads `File size must be less than 10 MB`. -/
theorem sizeError_eq : sizeError = "File size must be less than 10 MB" := by
  decide

/-- The type check pushes nothing exactly for the media type `application/pdf`. -/
theorem typeErrors_eq (file : File) :
    typeErrors file = if file.type = "application/pdf" then [] else [typeError] := by
  unfold typeErrors FILE_CONSTRAINTS.ACCEPTED_TYPES
  by_cases h : file.type = "application/pdf"
  · simp [h]
  · have h' : ¬ ("application/pdf" = file.type) := fun e => h e.symm
    simp [h, h']

/-- The size check pushes nothing exactly for sizes up to 10485760. -/
theorem sizeErrors_eq (file : File) :
    sizeErrors file = if 10485760 < file.size then [sizeError] else [] := by
  unfold sizeErrors FILE_CONSTRAINTS.MAX_SIZE
  rfl

/-- The violation list of a present file, spelled out. -/
theorem validateFile_errors_some (file : File) :
    (validateFile (some file)).errors =
      (if file.type = "application/pdf" then [] else ["Only PDF files are supported"]) ++
      (if 10485760 < file.size then ["File size must be less than 10 MB"] else []) := by
  show typeErrors file ++ sizeErrors file = _
  rw [typeErrors_eq, sizeErrors_eq, sizeError_eq]
  rfl

/-- The flag `isValid` of a present file is `errors.length === 0`. -/
theorem validateFile_isValid_some (file : File) :
    (validateFile (some file)).isValid = true ↔ (validateFile (some file)).errors = [] := by
  show ((typeErrors file ++ sizeErrors file).length == 0) = true ↔
    typeErrors file ++ sizeErrors file = []
  rw [beq_iff_eq, List.length_eq_zero]

/-- A present file is valid exactly when it is a PDF of at most 10485760 bytes. -/
theorem validateFile_isValid_iff (file : File) :
    (validateFile (some file)).isValid = true ↔
      file.type = "application/pdf" ∧ file.size ≤ 10485760 := by
  rw [validateFile_isValid_some, validateFile_errors_some]
  by_cases ht : file.type = "application/pdf" <;> by_cases hs : 10485760 < file.size <;>
    simp [ht, hs]
  omega

/-- Claim C1: a present file whose type is not `application/pdf`, that is, not
among `FILE_CONSTRAINTS.ACCEPTED_TYPES`, is rejected whatever its size:
`validateFile` returns `isValid = false` and its errors contain
`Only PDF files are supported`. -/
theorem validateFile_rejects_non_pdf (file : File)
    (h : file.type ∉ FILE_CONSTRAINTS.ACCEPTED_TYPES) :
    file.type ≠ "application/pdf" ∧
    (validateFile (some file)).isValid = false ∧
    "Only PDF files are supported" ∈ (validateFile (some file)).errors := by
  have ht : file.type ≠ "application/pdf" := by
    intro e
    exact h (by simp [FILE_CONSTRAINTS.ACCEPTED_TYPES, e])
  refine ⟨ht, ?_, ?_⟩
  · rw [Bool.eq_false_iff]
    intro hv
    exact ht ((validateFile_isValid_iff file).1 hv).1
  · rw [validateFile_errors_some]
    simp [ht]

/-- An instance of C1: a 1-byte plain-text file. -/
theorem validateFile_rejects_non_pdf_witness :
    "text/plain" ≠ "application/pdf" ∧
    (validateFile (some { name := "notes.txt", size := 1, type := "text/plain" })).isValid = false ∧
    "Only PDF files are supported" ∈
      (validateFile (some { name := "notes.txt", size := 1, type := "text/plain" })).errors :=
  validateFile_rejects_non_pdf { name := "notes.txt", size := 1, type := "text/plain" }
    (by decide)

/-- Claim C2: a present file larger than `FILE_CONSTRAINTS.MAX_SIZE`
(10 * 1024 * 1024 = 10485760 bytes) is rejected whatever its type:
`validateFile` returns `isValid = false` and its errors contain
`File size must be less than 10 MB`, the 10 being `MAX_SIZE / 1024 / 1024`. -/
theorem validateFile_rejects_oversized (file : File)
    (h : file.size > FILE_CONSTRAINTS.MAX_SIZE) :
    FILE_CONSTRAINTS.MAX_SIZE = 10485760 ∧
    (validateFile (some file)).isValid = false ∧
    "File size must be less than 10 MB" ∈ (validateFile (some file)).errors ∧
    "File size must be less than 10 MB" =
      "File size must be less than " ++
        toString (FILE_CONSTRAINTS.MAX_SIZE / 1024 / 1024) ++ " MB" := by
  have hs : 10485760 < file.size := h
  refine ⟨rfl, ?_, ?_, by decide⟩
  · rw [Bool.eq_false_iff]
    intro hv
    have := ((validateFile_isValid_iff file).1 hv).2
    omega
  · rw [validateFile_errors_some]
    simp [hs]

/-- An instance of C2: a PDF of 10485761 bytes. -/
theorem validateFile_rejects_oversized_witness :
    (validateFile (some { name := "big.pdf", size := 10485761, type := "application/pdf" })).isValid
      = false ∧
    "File size must be less than 10 MB" ∈
      (validateFile (some { name := "big.pdf", size := 10485761, type := "application/pdf" })).errors :=
  let h := validateFile_rejects_oversized
    { name := "big.pdf", size := 10485761, type := "application/pdf" } (by decide)
  ⟨h.2.1, h.2.2.1⟩

/-- Claim C3: the violation list is determined by the input: an absent file
gives `['Please select a file']`; a present file gives the type violation (when
the type is not accepted) followed by the size violation (when the size exceeds
`MAX_SIZE`) and nothing else, so a file failing both checks reports both, type
first and size second. -/
theorem validateFile_errors_exact :
    (validateFile none).errors = ["Please select a file"] ∧
    (∀ file : File, (validateFile (some file)).errors =
      (if file.type ∈ FILE_CONSTRAINTS.ACCEPTED_TYPES then []
        else ["Only PDF files are supported"]) ++
      (if file.size > FILE_CONSTRAINTS.MAX_SIZE then ["File size must be less than 10 MB"]
        else [])) ∧
    (∀ file : File, file.type ∉ FILE_CONSTRAINTS.ACCEPTED_TYPES →
      file.size > FILE_CONSTRAINTS.MAX_SIZE →
      (validateFile (some file)).errors =
        ["Only PDF files are supported", "File size must be less than 10 MB"]) := by
  have key : ∀ file : File, (validateFile (some file)).errors =
      (if file.type ∈ FILE_CONSTRAINTS.ACCEPTED_TYPES then []
        else ["Only PDF files are supported"]) ++
      (if file.size > FILE_CONSTRAINTS.MAX_SIZE then ["File size must be less than 10 MB"]
        else []) := by
    intro file
    rw [validateFile_errors_some]
    simp [FILE_CONSTRAINTS.ACCEPTED_TYPES, FILE_CONSTRAINTS.MAX_SIZE]
  refine ⟨rfl, key, ?_⟩
  intro file ht hs
  rw [key, if_neg ht, if_pos hs]
  rfl

/-- An instance of C3: an oversized text file reports both violations, in order. -/
theorem validateFile_errors_exact_witness :
    (validateFile (some { name := "big.txt", size := 10485761, type := "text/plain" })).errors =
      ["Only PDF files are supported", "File size must be less than 10 MB"] :=
  validateFile_errors_exact.2.2 { name := "big.txt", size := 10485761, type := "text/plain" }
    (by decide) (by decide)

/-- Claim C4: `isValid` is true exactly when the errors list is empty, and that
is exactly when the file is present, its type is `application/pdf` and its size
is at most 10485760 bytes; a PDF of exactly 10485760 bytes is admissible and one
of 10485761 bytes is not. -/
theorem validateFile_isValid_characterisation :
    (∀ f : Option File, ((validateFile f).isValid = true ↔ (validateFile f).errors = []) ∧
      ((validateFile f).isValid = true ↔
        ∃ file : File, f = some file ∧ file.type = "application/pdf" ∧ file.size ≤ 10485760)) ∧
    (∀ name : String,
      (validateFile (some { name := name, size := 10485760, type := "application/pdf" })).isValid
        = true ∧
      (validateFile (some { name := name, size := 10485761, type := "application/pdf" })).isValid
        = false) := by
  refine ⟨?_, ?_⟩
  · intro f
    cases f with
    | none =>
      refine ⟨?_, ?_⟩
      · simp [validateFile]
      · simp [validateFile]
    | some file =>
      refine ⟨validateFile_isValid_some file, ?_⟩
      rw [validateFile_isValid_iff]
      constructor
      · intro h
        exact ⟨file, rfl, h⟩
      · rintro ⟨file', hf, h⟩
        cases hf
        exact h
  · intro name
    refine ⟨?_, ?_⟩
    · rw [validateFile_isValid_iff]
      exact ⟨rfl, le_refl _⟩
    · rw [Bool.eq_false_iff, Ne, validateFile_isValid_iff]
      rintro ⟨-, h⟩
      have h' : (10485761 : Nat) ≤ 10485760 := h
      omega

/-! ## Upload component: `handleFileSelection`, `handleUpload` -/

/-- The result of `handleFileSelection`, field by field. -/
theorem FileUpload.handleFileSelection_eq (file : Option File) (s : UploadState) :
    FileUpload.handleFileSelection file s =
      { selectedFile := if (validateFile file).isValid then file else none,
        dragActive := s.dragActive,
        errors := if (validateFile file).isValid then [] else (validateFile file).errors } := by
  unfold FileUpload.handleFileSelection
  cases h : (validateFile file).isValid <;> simp [h]

/-- The handler `handleFileSelection` leaves a valid candidate or none. -/
theorem FileUpload.handleFileSelection_holdsValid (file : Option File) (s : UploadState) :
    FileUpload.HoldsValid (FileUpload.handleFileSelection file s) := by
  intro f hf
  rw [FileUpload.handleFileSelection_eq] at hf
  cases h : (validateFile file).isValid
  · simp [h] at hf
  · simp only [h, if_true] at hf
    rw [← hf]
    exact h

/-- Every event of the upload component keeps the held candidate valid. -/
theorem FileUpload.apply_holdsValid (s : UploadState) (e : FileUpload.Event)
    (h : FileUpload.HoldsValid s) : FileUpload.HoldsValid (FileUpload.apply s e) := by
  cases e with
  | drag type =>
    intro f hf
    apply h f
    simp only [FileUpload.apply, FileUpload.handleDrag] at hf
    split_ifs at hf <;> exact hf
  | drop first =>
    cases first with
    | none => exact fun f hf => h f hf
    | some f0 => exact FileUpload.handleFileSelection_holdsValid _ _
  | fileInput first =>
    cases first with
    | none => exact h
    | some f0 => exact FileUpload.handleFileSelection_holdsValid _ _
  | fileSelection file => exact FileUpload.handleFileSelection_holdsValid _ _
  | removeFile =>
    intro f hf
    simp [FileUpload.apply, FileUpload.handleRemoveFile] at hf

/-- Running events from a state that holds a valid candidate or none ends in
such a state. -/
theorem FileUpload.run_holdsValid (events : List FileUpload.Event) :
    ∀ s : UploadState, FileUpload.HoldsValid s → FileUpload.HoldsValid (FileUpload.run s events) := by
  induction events with
  | nil => exact fun s h => h
  | cons e es ih => exact fun s h => ih _ (FileUpload.apply_holdsValid s e h)

/-- Every reachable upload-component state holds a valid candidate or none. -/
theorem FileUpload.reachable_holdsValid (s : UploadState) (h : FileUpload.Reachable s) :
    FileUpload.HoldsValid s := by
  obtain ⟨events, rfl⟩ := h
  exact FileUpload.run_holdsValid events _ (fun f hf => by simp [FileUpload.initial] at hf)

/-- One more event keeps an upload-component state reachable. -/
theorem FileUpload.reachable_apply (s : UploadState) (e : FileUpload.Event)
    (h : FileUpload.Reachable s) : FileUpload.Reachable (FileUpload.apply s e) := by
  obtain ⟨events, rfl⟩ := h
  exact ⟨events ++ [e], by simp [FileUpload.run, List.foldl_append]⟩

/-! ## The page: invariant of the reachable states -/

/-- The message stored by the `catch` branch is always truthy. -/
theorem HomePage.errorMessage_truthy (err : ApiError) :
    (HomePage.errorMessage err).truthy = true := by
  unfold HomePage.errorMessage JsVal.or
  cases h : (HomePage.backendMessage err).truthy
  · simp [HomePage.fallbackMessage, JsVal.truthy]
  · simp [h]

/-- With an idle controller the upload component is mounted, keeping the state
of an instance that was already there. -/
theorem App.mountUpload_idle (prev : Option UploadState) (home : HomeState)
    (h : home.apiStatus = API_STATUS.IDLE) :
    App.mountUpload prev home = some (prev.getD FileUpload.initial) := by
  simp [App.mountUpload, HomePage.rendersFileUpload, h]

/-- The first render satisfies the invariant. -/
theorem App.inv_initial : App.Inv App.initial := by
  left
  exact ⟨rfl, rfl, rfl, rfl, FileUpload.initial, rfl, [], rfl⟩

/-- Every offered event keeps the invariant. -/
theorem App.inv_step (a b : AppState) (e : App.Event) (h : App.Inv a)
    (hs : App.step a e = some b) : App.Inv b := by
  cases e with
  | upload ev =>
    rcases h with ⟨h1, h2, h3, h4, u, hu, hr⟩ | ⟨-, -, -, hu, -⟩ | ⟨-, -, -, hu⟩ | ⟨-, -, -, -, hu⟩
    · simp only [App.step, hu, Option.some.injEq] at hs
      subst hs
      left
      exact ⟨h1, h2, h3, h4, _, rfl, FileUpload.reachable_apply u ev hr⟩
    all_goals simp [App.step, hu] at hs
  | submit =>
    rcases h with ⟨h1, h2, h3, h4, u, hu, hr⟩ | ⟨-, -, -, hu, -⟩ | ⟨-, -, -, hu⟩ | ⟨-, -, -, -, hu⟩
    · simp only [App.step, hu, FileUpload.rendersSubmit, FileUpload.handleUpload] at hs
      cases hf : u.selectedFile with
      | none => simp [hf] at hs
      | some f =>
        simp only [hf, Option.isSome_some, if_true, Option.some.injEq] at hs
        subst hs
        right; left
        refine ⟨rfl, h2, rfl, ?_, f, ?_, FileUpload.reachable_holdsValid u hr f hf⟩
        · simp [App.handleFileSelect, App.setHome, App.mountUpload, HomePage.rendersFileUpload,
            HomePage.handleFileSelect_start, API_STATUS.LOADING, API_STATUS.IDLE]
        · simp [App.handleFileSelect, h4]
    all_goals simp [App.step, hu] at hs
  | resolve i data =>
    rcases h with ⟨-, -, -, h4, -⟩ | ⟨-, -, h3, -, f, hp, -⟩ | ⟨-, -, h4, -⟩ | ⟨-, -, -, h4, -⟩
    · simp [App.step, h4] at hs
    · simp only [App.step, hp, List.length_singleton, Nat.lt_one_iff] at hs
      split_ifs at hs with hi
      simp only [Option.some.injEq] at hs
      subst hs
      subst hi
      right; right; left
      refine ⟨rfl, h3, ?_, ?_⟩
      · simp [App.resolved, hp]
      · simp [App.resolved, App.setHome, App.mountUpload, HomePage.rendersFileUpload,
          HomePage.handleFileSelect_resolved, API_STATUS.SUCCESS, API_STATUS.IDLE]
    all_goals simp [App.step, h4] at hs
  | reject i err =>
    rcases h with ⟨-, -, -, h4, -⟩ | ⟨-, h2, -, -, f, hp, -⟩ | ⟨-, -, h4, -⟩ | ⟨-, -, -, h4, -⟩
    · simp [App.step, h4] at hs
    · simp only [App.step, hp, List.length_singleton, Nat.lt_one_iff] at hs
      split_ifs at hs with hi
      simp only [Option.some.injEq] at hs
      subst hs
      subst hi
      right; right; right
      refine ⟨rfl, h2, HomePage.errorMessage_truthy err, ?_, ?_⟩
      · simp [App.rejected, hp]
      · simp [App.rejected, App.setHome, App.mountUpload, HomePage.rendersFileUpload,
          HomePage.handleFileSelect_rejected, API_STATUS.ERROR, API_STATUS.IDLE]
    all_goals simp [App.step, h4] at hs
  | newUpload =>
    simp only [App.step] at hs
    split_ifs at hs with ho
    simp only [Option.some.injEq] at hs
    subst hs
    left
    refine ⟨rfl, rfl, rfl, ?_, ?_⟩
    · rcases h with ⟨h1, -⟩ | ⟨h1, -⟩ | ⟨-, -, h4, -⟩ | ⟨-, -, -, h4, -⟩
      · simp [HomePage.offersNewUpload, HomePage.rendersErrorCard, HomePage.rendersResults, h1,
          API_STATUS.IDLE, API_STATUS.ERROR, API_STATUS.SUCCESS] at ho
      · simp [HomePage.offersNewUpload, HomePage.rendersErrorCard, HomePage.rendersResults, h1,
          API_STATUS.LOADING, API_STATUS.ERROR, API_STATUS.SUCCESS] at ho
      · exact h4
      · exact h4
    · rcases h with ⟨h1, -⟩ | ⟨h1, -, -, hu, -⟩ | ⟨-, -, -, hu⟩ | ⟨-, -, -, -, hu⟩
      · simp [HomePage.offersNewUpload, HomePage.rendersErrorCard, HomePage.rendersResults, h1,
          API_STATUS.IDLE, API_STATUS.ERROR, API_STATUS.SUCCESS] at ho
      · simp [HomePage.offersNewUpload, HomePage.rendersErrorCard, HomePage.rendersResults, h1,
          API_STATUS.LOADING, API_STATUS.ERROR, API_STATUS.SUCCESS] at ho
      · exact ⟨FileUpload.initial, by
          simp [App.handleNewUpload, App.setHome, App.mountUpload, HomePage.rendersFileUpload,
            hu, HomePage.handleNewUpload], [], rfl⟩
      · exact ⟨FileUpload.initial, by
          simp [App.handleNewUpload, App.setHome, App.mountUpload, HomePage.rendersFileUpload,
            hu, HomePage.handleNewUpload], [], rfl⟩

/-- A run of offered events keeps the invariant. -/
theorem App.inv_run (events : List App.Event) :
    ∀ a b : AppState, App.Inv a → App.run a events = some b → App.Inv b := by
  induction events with
  | nil =>
    intro a b h hr
    simp only [App.run, Option.some.injEq] at hr
    exact hr ▸ h
  | cons e es ih =>
    intro a b h hr
    simp only [App.run] at hr
    cases hs : App.step a e with
    | none => simp [hs] at hr
    | some c =>
      rw [hs] at hr
      exact ih c b (App.inv_step a c e h hs) hr

/-- Every reachable page state satisfies the invariant. -/
theorem App.reachable_inv (a : AppState) (h : App.Reachable a) : App.Inv a := by
  obtain ⟨events, hr⟩ := h
  exact App.inv_run events _ _ App.inv_initial hr

/-! ## Controller: failure of `parseStatement` -/

/-- Claim C5, as stated, fails for an error body whose `error` field is the
empty string: the body `{error: ''}` carries the backend message `''`, and the
controller stores the generic fallback instead of it. -/
theorem handleFileSelect_empty_backend_message :
    HomePage.backendMessage
      { response := JsVal.obj [("status", JsVal.num 400),
          ("data", JsVal.obj [("error", JsVal.str "")])] } = JsVal.str "" ∧
    (HomePage.handleFileSelect_rejected
      { response := JsVal.obj [("status", JsVal.num 400),
          ("data", JsVal.obj [("error", JsVal.str "")])] }
      (HomePage.handleFileSelect_start HomePage.initial)).error
        = JsVal.str "Failed to parse statement" ∧
    (HomePage.handleFileSelect_rejected
      { response := JsVal.obj [("status", JsVal.num 400),
          ("data", JsVal.obj [("error", JsVal.str "")])] }
      (HomePage.handleFileSelect_start HomePage.initial)).error
        ≠ HomePage.backendMessage
            { response := JsVal.obj [("status", JsVal.num 400),
                ("data", JsVal.obj [("error", JsVal.str "")])] } := by
  refine ⟨rfl, rfl, ?_⟩
  intro h
  have h' : JsVal.str "Failed to parse statement" = JsVal.str "" := h
  simp at h'

/-- Claim C5, amended: when `parseStatement` fails during `handleFileSelect`,
the controller ends with `apiStatus = 'error'`, `parsedData` as it was before
the submission, and `error` equal to `err.response?.data?.error` whenever that
value is truthy (any non-empty message string, verbatim) and to
`'Failed to parse statement'` whenever it is falsy: no response, no body, no
`error` field, or an empty message. -/
theorem handleFileSelect_failure (s : HomeState) (err : ApiError) :
    (HomePage.handleFileSelect_rejected err (HomePage.handleFileSelect_start s)).apiStatus
      = "error" ∧
    (HomePage.handleFileSelect_rejected err (HomePage.handleFileSelect_start s)).parsedData
      = s.parsedData ∧
    (HomePage.handleFileSelect_rejected err (HomePage.handleFileSelect_start s)).error
      = (if (HomePage.backendMessage err).truthy then HomePage.backendMessage err
          else JsVal.str "Failed to parse statement") ∧
    (∀ msg : String, HomePage.backendMessage err = JsVal.str msg → msg ≠ "" →
      (HomePage.handleFileSelect_rejected err (HomePage.handleFileSelect_start s)).error
        = JsVal.str msg) ∧
    (err.response = JsVal.undefined ∨ err.response.optGet "data" = JsVal.undefined ∨
      err.response.optGet "data" = JsVal.null ∨
      HomePage.backendMessage err = JsVal.undefined ∨
      HomePage.backendMessage err = JsVal.null ∨
      HomePage.backendMessage err = JsVal.str "" →
      (HomePage.handleFileSelect_rejected err (HomePage.handleFileSelect_start s)).error
        = JsVal.str "Failed to parse statement") := by
  have key : (HomePage.handleFileSelect_rejected err (HomePage.handleFileSelect_start s)).error
      = (if (HomePage.backendMessage err).truthy then HomePage.backendMessage err
          else JsVal.str "Failed to parse statement") := rfl
  refine ⟨rfl, rfl, key, ?_, ?_⟩
  · intro msg hm hne
    rw [key, hm]
    simp [JsVal.truthy, hne]
  · intro h
    rw [key]
    have hfalsy : (HomePage.backendMessage err).truthy = false := by
      rcases h with h | h | h | h | h | h
      · simp [HomePage.backendMessage, h, JsVal.optGet, JsVal.truthy]
      · unfold HomePage.backendMessage
        rw [h]
        rfl
      · unfold HomePage.backendMessage
        rw [h]
        rfl
      · simp [h, JsVal.truthy]
      · simp [h, JsVal.truthy]
      · simp [h, JsVal.truthy]
    simp [hfalsy]

/-- An instance of C5: the backend body `{error: 'bad format'}` leaves the
controller with the message `'bad format'`, verbatim. -/
theorem handleFileSelect_failure_witness :
    (HomePage.handleFileSelect_rejected
      { response := JsVal.obj [("data", JsVal.obj [("error", JsVal.str "bad format")])] }
      (HomePage.handleFileSelect_start HomePage.initial)).error = JsVal.str "bad format" :=
  (handleFileSelect_failure HomePage.initial
    { response := JsVal.obj [("data", JsVal.obj [("error", JsVal.str "bad format")])] }).2.2.2.1
    "bad format" rfl (by decide)

/-! ## Controller: `handleNewUpload` -/

/-- The sample idle page is reached by choosing the file. -/
theorem Examples.idleHoldingPdf_reachable : App.Reachable Examples.idleHoldingPdf :=
  ⟨[App.Event.upload (FileUpload.Event.fileInput (some Examples.statementPdf))], rfl⟩

/-- The sample loading page is reached by choosing the file and submitting it. -/
theorem Examples.loadingPage_reachable : App.Reachable Examples.loadingPage :=
  ⟨[App.Event.upload (FileUpload.Event.fileInput (some Examples.statementPdf)),
    App.Event.submit], rfl⟩

/-- The sample failed page is reached when the submitted call is rejected. -/
theorem Examples.failedPage_reachable : App.Reachable Examples.failedPage :=
  ⟨[App.Event.upload (FileUpload.Event.fileInput (some Examples.statementPdf)),
    App.Event.submit, App.Event.reject 0 Examples.networkError], rfl⟩

/-- Claim C6: `handleNewUpload`, applied in any controller state (whatever
`apiStatus`, `parsedData` and `error` are), yields `apiStatus = 'idle'`,
`parsedData = null` and `error = null`; and in the idle state the page reaches
this way, from any reachable state in which the view offers the action, the
upload component is mounted afresh, holding no candidate file and an empty
violation list, and no call is open. -/
theorem handleNewUpload_resets :
    (∀ s : HomeState, (HomePage.handleNewUpload s).apiStatus = "idle" ∧
      (HomePage.handleNewUpload s).parsedData = JsVal.null ∧
      (HomePage.handleNewUpload s).error = JsVal.null) ∧
    (∀ a b : AppState, App.Reachable a → App.step a App.Event.newUpload = some b →
      b.home.apiStatus = "idle" ∧ b.home.parsedData = JsVal.null ∧
      b.home.error = JsVal.null ∧
      (∃ u : UploadState, b.upload = some u ∧ u.selectedFile = none ∧ u.errors = []) ∧
      b.pending = []) := by
  refine ⟨fun s => ⟨rfl, rfl, rfl⟩, ?_⟩
  intro a b hr hs
  simp only [App.step] at hs
  split_ifs at hs with ho
  simp only [Option.some.injEq] at hs
  subst hs
  have hshape : a.upload = none ∧ a.pending = [] := by
    rcases App.reachable_inv a hr with ⟨h1, -⟩ | ⟨h1, -⟩ | ⟨-, -, hp, hu⟩ | ⟨-, -, -, hp, hu⟩
    · simp [HomePage.offersNewUpload, HomePage.rendersErrorCard, HomePage.rendersResults, h1,
        API_STATUS.IDLE, API_STATUS.ERROR, API_STATUS.SUCCESS] at ho
    · simp [HomePage.offersNewUpload, HomePage.rendersErrorCard, HomePage.rendersResults, h1,
        API_STATUS.LOADING, API_STATUS.ERROR, API_STATUS.SUCCESS] at ho
    · exact ⟨hu, hp⟩
    · exact ⟨hu, hp⟩
  refine ⟨rfl, rfl, rfl, ⟨FileUpload.initial, ?_, rfl, rfl⟩, hshape.2⟩
  show App.mountUpload a.upload (HomePage.handleNewUpload a.home) = some FileUpload.initial
  rw [App.mountUpload_idle _ _ rfl, hshape.1]
  rfl

/-- An instance of C6: "Try another file" on the failed page gives an idle page
with a fresh upload component. -/
theorem handleNewUpload_resets_witness :
    (App.handleNewUpload Examples.failedPage).home.apiStatus = "idle" ∧
    ∃ u : UploadState, (App.handleNewUpload Examples.failedPage).upload = some u ∧
      u.selectedFile = none ∧ u.errors = [] :=
  let h := handleNewUpload_resets.2 Examples.failedPage (App.handleNewUpload Examples.failedPage)
    Examples.failedPage_reachable rfl
  ⟨h.1, h.2.2.2.1⟩

/-! ## Controller: the state is a strict sum -/

/-- Claim C7: in every state reachable from the first render (idle, null, null)
by the submit, resolve, reject and new-upload steps the view offers, `apiStatus`
is one of the four statuses, `parsedData` and `error` are never both non-null,
both are null while `apiStatus` is `'idle'` or `'loading'`, `parsedData` is
non-null only when `apiStatus` is `'success'`, and `error` is non-null only when
`apiStatus` is `'error'`. -/
theorem controller_strict_sum (a : AppState) (h : App.Reachable a) :
    (a.home.apiStatus = "idle" ∨ a.home.apiStatus = "loading" ∨
      a.home.apiStatus = "success" ∨ a.home.apiStatus = "error") ∧
    ¬ (a.home.parsedData ≠ JsVal.null ∧ a.home.error ≠ JsVal.null) ∧
    (a.home.apiStatus = "idle" ∨ a.home.apiStatus = "loading" →
      a.home.parsedData = JsVal.null ∧ a.home.error = JsVal.null) ∧
    (a.home.parsedData ≠ JsVal.null → a.home.apiStatus = "success") ∧
    (a.home.error ≠ JsVal.null → a.home.apiStatus = "error") := by
  rcases App.reachable_inv a h with ⟨h1, h2, h3, -⟩ | ⟨h1, h2, h3, -⟩ | ⟨h1, h3, -⟩ |
    ⟨h1, h2, -⟩
  · refine ⟨Or.inl h1, fun c => c.1 h2, fun _ => ⟨h2, h3⟩, fun c => absurd h2 c,
      fun c => absurd h3 c⟩
  · refine ⟨Or.inr (Or.inl h1), fun c => c.1 h2, fun _ => ⟨h2, h3⟩, fun c => absurd h2 c,
      fun c => absurd h3 c⟩
  · refine ⟨Or.inr (Or.inr (Or.inl h1)), fun c => c.2 h3, ?_, fun _ => h1,
      fun c => absurd h3 c⟩
    rintro (c | c) <;> rw [h1] at c <;> exact absurd c (by decide)
  · refine ⟨Or.inr (Or.inr (Or.inr h1)), fun c => c.1 h2, ?_, fun c => absurd h2 c,
      fun _ => h1⟩
    rintro (c | c) <;> rw [h1] at c <;> exact absurd c (by decide)

/-- An instance of C7: the page after a failed submission. -/
theorem controller_strict_sum_witness :
    ¬ (Examples.failedPage.home.parsedData ≠ JsVal.null ∧
        Examples.failedPage.home.error ≠ JsVal.null) ∧
    (Examples.failedPage.home.error ≠ JsVal.null →
      Examples.failedPage.home.apiStatus = "error") :=
  ⟨(controller_strict_sum Examples.failedPage Examples.failedPage_reachable).2.1,
   (controller_strict_sum Examples.failedPage Examples.failedPage_reachable).2.2.2.2⟩

/-! ## Controller: late responses -/

/-- Claim C8, as stated, fails: the continuation of `handleFileSelect` carries no
token. If `handleNewUpload` runs while the call for `statementPdf` is open, the
later resolution of that call turns the idle controller into `'success'` with
the late data; and if a second submission was started in between, it overwrites
that episode's `'loading'` while the second call is still open. -/
theorem stale_resolution_overwrites :
    (App.handleNewUpload (App.handleFileSelect Examples.statementPdf App.initial)).home.apiStatus
      = "idle" ∧
    (App.handleNewUpload (App.handleFileSelect Examples.statementPdf App.initial)).pending
      = [Examples.statementPdf] ∧
    (App.resolved 0 Examples.statementData
      (App.handleNewUpload (App.handleFileSelect Examples.statementPdf App.initial))).home.apiStatus
      = "success" ∧
    (App.resolved 0 Examples.statementData
      (App.handleNewUpload (App.handleFileSelect Examples.statementPdf App.initial))).home.parsedData
      = Examples.statementData ∧
    (App.handleFileSelect Examples.otherPdf
      (App.handleNewUpload (App.handleFileSelect Examples.statementPdf App.initial))).home.apiStatus
      = "loading" ∧
    (App.resolved 0 Examples.statementData
      (App.handleFileSelect Examples.otherPdf
        (App.handleNewUpload
          (App.handleFileSelect Examples.statementPdf App.initial)))).home.apiStatus
      = "success" ∧
    (App.resolved 0 Examples.statementData
      (App.handleFileSelect Examples.otherPdf
        (App.handleNewUpload
          (App.handleFileSelect Examples.statementPdf App.initial)))).pending
      = [Examples.otherPdf] ∧
    (App.rejected 0 Examples.networkError
      (App.handleNewUpload (App.handleFileSelect Examples.statementPdf App.initial))).home.apiStatus
      = "error" :=
  ⟨rfl, rfl, rfl, rfl, rfl, rfl, rfl, rfl⟩

/-- Claim C8, amended: the controller has no request token, so the resolution or
rejection of a call is applied to whatever the state then is (`apiStatus`
becomes `'success'` with `parsedData` the data, or `'error'` with `error` the
message). A stale response does not arise through the view: in every reachable
state at most one call is open, one is open exactly while `apiStatus` is
`'loading'`, and while it is open neither the new-upload action nor the submit
trigger is offered. -/
theorem no_stale_response_through_view :
    (∀ (s : HomeState) (data : JsVal),
      (HomePage.handleFileSelect_resolved data s).apiStatus = "success" ∧
      (HomePage.handleFileSelect_resolved data s).parsedData = data ∧
      (HomePage.handleFileSelect_resolved data s).error = s.error) ∧
    (∀ (s : HomeState) (err : ApiError),
      (HomePage.handleFileSelect_rejected err s).apiStatus = "error" ∧
      (HomePage.handleFileSelect_rejected err s).error = HomePage.errorMessage err ∧
      (HomePage.handleFileSelect_rejected err s).parsedData = s.parsedData) ∧
    (∀ a : AppState, App.Reachable a →
      a.pending.length ≤ 1 ∧
      (a.pending ≠ [] ↔ a.home.apiStatus = "loading") ∧
      (a.pending ≠ [] →
        App.step a App.Event.newUpload = none ∧ App.step a App.Event.submit = none)) := by
  refine ⟨fun s data => ⟨rfl, rfl, rfl⟩, fun s err => ⟨rfl, rfl, rfl⟩, ?_⟩
  intro a hr
  rcases App.reachable_inv a hr with ⟨h1, -, -, hp, -⟩ | ⟨h1, -, -, hu, f, hp, -⟩ |
    ⟨h1, -, hp, -⟩ | ⟨h1, -, -, hp, -⟩
  · refine ⟨by simp [hp], ?_, fun c => absurd hp c⟩
    rw [h1]
    exact ⟨fun c => absurd hp c, fun c => absurd c (by decide)⟩
  · refine ⟨by simp [hp], ⟨fun _ => h1, fun _ => by simp [hp]⟩, fun _ => ⟨?_, ?_⟩⟩
    · simp [App.step, HomePage.offersNewUpload, HomePage.rendersErrorCard,
        HomePage.rendersResults, h1, API_STATUS.LOADING, API_STATUS.ERROR, API_STATUS.SUCCESS]
    · simp [App.step, hu]
  · refine ⟨by simp [hp], ?_, fun c => absurd hp c⟩
    rw [h1]
    exact ⟨fun c => absurd hp c, fun c => absurd c (by decide)⟩
  · refine ⟨by simp [hp], ?_, fun c => absurd hp c⟩
    rw [h1]
    exact ⟨fun c => absurd hp c, fun c => absurd c (by decide)⟩

/-- An instance of C8: while the call for `statementPdf` is open, the page
offers neither the new-upload action nor the submit trigger. -/
theorem no_stale_response_through_view_witness :
    Examples.loadingPage.pending ≠ [] ∧
    App.step Examples.loadingPage App.Event.newUpload = none ∧
    App.step Examples.loadingPage App.Event.submit = none :=
  ⟨by decide,
   (no_stale_response_through_view.2.2 Examples.loadingPage
      Examples.loadingPage_reachable).2.2 (by decide)⟩

/-! ## Upload component: selection and submission -/

/-- Claim C9: for every upload-component state and every file,
`handleFileSelection(file)` ends with `selectedFile = file` and `errors = []`
when `validateFile(file).isValid`, and with `selectedFile = null` and
`errors = validateFile(file).errors` otherwise; the outcome does not depend on
the candidate and the violation list held before. -/
theorem handleFileSelection_replaces (s : UploadState) (file : Option File) :
    (FileUpload.handleFileSelection file s).selectedFile
      = (if (validateFile file).isValid = true then file else none) ∧
    (FileUpload.handleFileSelection file s).errors
      = (if (validateFile file).isValid = true then [] else (validateFile file).errors) ∧
    (∀ s2 : UploadState,
      (FileUpload.handleFileSelection file s2).selectedFile
        = (FileUpload.handleFileSelection file s).selectedFile ∧
      (FileUpload.handleFileSelection file s2).errors
        = (FileUpload.handleFileSelection file s).errors) := by
  refine ⟨?_, ?_, fun s2 => ⟨?_, ?_⟩⟩ <;> simp [FileUpload.handleFileSelection_eq]

/-- Claim C10: in every upload-component state reachable through its handlers
(`handleFileSelection`, `handleRemoveFile`, and drag, drop and file-input
events), `selectedFile` is null or a file that `validateFile` accepts;
`handleUpload` invokes `onFileSelect` exactly when `selectedFile` is non-null,
with that file; hence every submission offered by the page opens a
`parseStatement` call for a file that `validateFile` accepts, and every open
call is for such a file. -/
theorem submission_guarded :
    (∀ s : UploadState, FileUpload.Reachable s →
      s.selectedFile = none ∨
      ∃ f : File, s.selectedFile = some f ∧ (validateFile (some f)).isValid = true) ∧
    (∀ (β : Type) (callback : File → β) (s : UploadState),
      FileUpload.handleUpload (some callback) s = s.selectedFile.map callback) ∧
    (∀ a b : AppState, App.Reachable a → App.step a App.Event.submit = some b →
      ∃ f : File, (validateFile (some f)).isValid = true ∧
        b = App.handleFileSelect f a ∧ b.pending = a.pending ++ [f]) ∧
    (∀ a : AppState, App.Reachable a →
      ∀ f ∈ a.pending, (validateFile (some f)).isValid = true) := by
  refine ⟨?_, ?_, ?_, ?_⟩
  · intro s hr
    cases hf : s.selectedFile with
    | none => exact Or.inl rfl
    | some f => exact Or.inr ⟨f, rfl, FileUpload.reachable_holdsValid s hr f hf⟩
  · intro β callback s
    unfold FileUpload.handleUpload
    cases s.selectedFile <;> rfl
  · intro a b hr hs
    rcases App.reachable_inv a hr with ⟨-, -, -, -, u, hu, hru⟩ | ⟨-, -, -, hu, -⟩ |
      ⟨-, -, -, hu⟩ | ⟨-, -, -, -, hu⟩
    · simp only [App.step, hu, FileUpload.rendersSubmit, FileUpload.handleUpload] at hs
      cases hf : u.selectedFile with
      | none => simp [hf] at hs
      | some f =>
        simp only [hf, Option.isSome_some, if_true, Option.some.injEq] at hs
        subst hs
        exact ⟨f, FileUpload.reachable_holdsValid u hru f hf, rfl, rfl⟩
    all_goals simp [App.step, hu] at hs
  · intro a hr f hf
    rcases App.reachable_inv a hr with ⟨-, -, -, hp, -⟩ | ⟨-, -, -, -, g, hp, hv⟩ |
      ⟨-, -, hp, -⟩ | ⟨-, -, -, hp, -⟩
    · simp [hp] at hf
    · simp only [hp, List.mem_singleton] at hf
      exact hf ▸ hv
    · simp [hp] at hf
    · simp [hp] at hf

/-- An instance of C10: on the idle page holding `statementPdf`, the submission
opens a call for that file, which `validateFile` accepts. -/
theorem submission_guarded_witness :
    ∃ f : File, (validateFile (some f)).isValid = true ∧
      Examples.loadingPage = App.handleFileSelect f Examples.idleHoldingPdf ∧
      Examples.loadingPage.pending = Examples.idleHoldingPdf.pending ++ [f] :=
  submission_guarded.2.2.1 Examples.idleHoldingPdf Examples.loadingPage
    Examples.idleHoldingPdf_reachable rfl

/-! ## Controller: one submission at a time -/

/-- Claim C11: at most one submission is in flight. In every reachable page
state the upload component (the submit trigger) is mounted exactly while
`apiStatus` is `'idle'`; a submission is taken only from `'idle'` and leaves
`apiStatus = 'loading'` with the upload component unmounted and one open call;
while `apiStatus` is `'loading'` no submission can be started; and at most one
call is open. -/
theorem single_submission_in_flight (a : AppState) (h : App.Reachable a) :
    (HomePage.rendersFileUpload a.home = true ↔ a.home.apiStatus = "idle") ∧
    (a.upload.isSome = true ↔ a.home.apiStatus = "idle") ∧
    (∀ s : HomeState, (HomePage.handleFileSelect_start s).apiStatus = "loading") ∧
    (∀ b : AppState, App.step a App.Event.submit = some b →
      a.home.apiStatus = "idle" ∧ b.home.apiStatus = "loading" ∧ b.upload = none ∧
      b.pending.length = 1 ∧ App.step b App.Event.submit = none) ∧
    (a.home.apiStatus = "loading" → App.step a App.Event.submit = none) ∧
    a.pending.length ≤ 1 := by
  have hrender : HomePage.rendersFileUpload a.home = true ↔ a.home.apiStatus = "idle" := by
    simp [HomePage.rendersFileUpload, API_STATUS.IDLE]
  refine ⟨hrender, ?_, fun s => rfl, ?_, ?_, ?_⟩
  · rcases App.reachable_inv a h with ⟨h1, -, -, -, u, hu, -⟩ | ⟨h1, -, -, hu, -⟩ |
      ⟨h1, -, -, hu⟩ | ⟨h1, -, -, -, hu⟩
    · simp [hu, h1, API_STATUS.IDLE]
    · simp [hu, h1, API_STATUS.LOADING]
    · simp [hu, h1, API_STATUS.SUCCESS]
    · simp [hu, h1, API_STATUS.ERROR]
  · intro b hs
    rcases App.reachable_inv a h with ⟨h1, -, -, hp, u, hu, -⟩ | ⟨-, -, -, hu, -⟩ |
      ⟨-, -, -, hu⟩ | ⟨-, -, -, -, hu⟩
    · simp only [App.step, hu, FileUpload.rendersSubmit, FileUpload.handleUpload] at hs
      cases hf : u.selectedFile with
      | none => simp [hf] at hs
      | some f =>
        simp only [hf, Option.isSome_some, if_true, Option.some.injEq] at hs
        subst hs
        have hup : (App.handleFileSelect f a).upload = none := by
          simp [App.handleFileSelect, App.setHome, App.mountUpload, HomePage.rendersFileUpload,
            HomePage.handleFileSelect_start, API_STATUS.LOADING, API_STATUS.IDLE]
        refine ⟨h1, rfl, hup, by simp [App.handleFileSelect, hp], ?_⟩
        simp [App.step, hup]
    all_goals simp [App.step, hu] at hs
  · intro hl
    rcases App.reachable_inv a h with ⟨h1, -⟩ | ⟨-, -, -, hu, -⟩ | ⟨h1, -⟩ | ⟨h1, -⟩
    · rw [h1] at hl
      exact absurd hl (by decide)
    · simp [App.step, hu]
    · rw [h1] at hl
      exact absurd hl (by decide)
    · rw [h1] at hl
      exact absurd hl (by decide)
  · rcases App.reachable_inv a h with ⟨-, -, -, hp, -⟩ | ⟨-, -, -, -, f, hp, -⟩ |
      ⟨-, -, hp, -⟩ | ⟨-, -, -, hp, -⟩ <;> simp [hp]

/-- An instance of C11: while the call for `statementPdf` is open the page takes
no further submission. -/
theorem single_submission_in_flight_witness :
    App.step Examples.loadingPage App.Event.submit = none ∧
    Examples.loadingPage.pending.length ≤ 1 :=
  ⟨(single_submission_in_flight Examples.loadingPage Examples.loadingPage_reachable).2.2.2.2.1
      rfl,
   (single_submission_in_flight Examples.loadingPage Examples.loadingPage_reachable).2.2.2.2.2⟩

/-! ## Controller: recovery from success and failure -/

/-- Claim C12 fails on the success payload `null`: the page reached when the
call resolves with `null` has `apiStatus = 'success'`, renders neither the
results view nor any other part that offers the new-upload action, and takes no
event at all. The failure side holds (a reachable `'error'` state always offers
the action), and a reachable `'success'` state offers it exactly when
`parsedData` is truthy. -/
theorem success_with_empty_payload_is_dead_end :
    App.run App.initial
      [App.Event.upload (FileUpload.Event.fileInput (some Examples.statementPdf)),
       App.Event.submit, App.Event.resolve 0 JsVal.null] = some Examples.emptySuccessPage ∧
    Examples.emptySuccessPage.home.apiStatus = "success" ∧
    HomePage.offersNewUpload Examples.emptySuccessPage.home = false ∧
    HomePage.rendersFileUpload Examples.emptySuccessPage.home = false ∧
    (∀ e : App.Event, App.step Examples.emptySuccessPage e = none) ∧
    (∀ a : AppState, App.Reachable a → a.home.apiStatus = "error" →
      HomePage.offersNewUpload a.home = true) ∧
    (∀ a : AppState, App.Reachable a → a.home.apiStatus = "success" →
      (HomePage.offersNewUpload a.home = true ↔ a.home.parsedData.truthy = true)) := by
  refine ⟨rfl, rfl, rfl, rfl, ?_, ?_, ?_⟩
  · intro e
    cases e <;> rfl
  · intro a hr he
    rcases App.reachable_inv a hr with ⟨h1, -⟩ | ⟨h1, -⟩ | ⟨h1, -⟩ | ⟨-, -, ht, -⟩
    · rw [h1] at he
      exact absurd he (by decide)
    · rw [h1] at he
      exact absurd he (by decide)
    · rw [h1] at he
      exact absurd he (by decide)
    · simp [HomePage.offersNewUpload, HomePage.rendersErrorCard, he, ht, API_STATUS.ERROR]
  · intro a hr hsucc
    simp [HomePage.offersNewUpload, HomePage.rendersErrorCard, HomePage.rendersResults, hsucc,
      API_STATUS.ERROR, API_STATUS.SUCCESS]

/-! ## Results view: the transactions table -/

/-- Claim C14, as stated, fails on a transactions list with a `null` entry: the
callback reads `txn.transactionDate` by plain member access, which throws on
`null`, so no row is built from that entry and the render throws. -/
theorem tableRows_null_entry_throws :
    (∀ rt : DateRuntime, StatementResults.tableRows rt [JsVal.null] = [none]) ∧
    (∀ rt : DateRuntime,
      ¬ ∃ row : StatementResults.Row,
        (StatementResults.tableRows rt [JsVal.null])[0]? = some (some row)) := by
  refine ⟨fun rt => rfl, fun rt => ?_⟩
  rintro ⟨row, hrow⟩
  have h0 : (StatementResults.tableRows rt [JsVal.null])[0]? = some none := rfl
  rw [h0] at hrow
  cases hrow

/-- Claim C14, amended: for a transactions list of `n` entries of which the
first ten are not `null` or `undefined`, the table has exactly `min n 10` rows
and row `k` is built from `transactions[k]`: its cells are the formatted
`transactionDate`, the `description` (else the `merchantName`, else `N/A`) and
the formatted `amount` of that entry. So the rows are the first ten entries in
received order, none added, dropped or moved; the card shows these rows
whenever the list is not empty, and fifteen entries give ten rows. -/
theorem tableRows_first_ten (rt : DateRuntime) (transactions : List JsVal)
    (h : ∀ t ∈ transactions.take 10, StatementResults.isPresent t = true) :
    (StatementResults.tableRows rt transactions).length = min transactions.length 10 ∧
    (∀ k : Nat, k < min transactions.length 10 →
      ∃ t : JsVal, transactions[k]? = some t ∧
        (StatementResults.tableRows rt transactions)[k]? =
          some (some
            { date := (DateArg.ofJsVal (t.optGet "transactionDate")).map (formatDate rt),
              description :=
                ((t.optGet "description").or (t.optGet "merchantName")).or (JsVal.str "N/A"),
              amount := (Amount.ofJsVal (t.optGet "amount")).bind formatAmount })) ∧
    (∀ data : JsVal, data.optGet "transactions" = JsVal.arr transactions →
      ((StatementResults.transactionsCard rt data).map (fun c => c.rows)).getD [] =
        StatementResults.tableRows rt transactions) ∧
    (StatementResults.tableRows rt Examples.fifteenTransactions).length = 10 := by
  refine ⟨?_, ?_, ?_, ?_⟩
  · simp [StatementResults.tableRows, Nat.min_comm]
  · intro k hk
    have hk10 : k < 10 := lt_of_lt_of_le hk (Nat.min_le_right _ _)
    have hkn : k < transactions.length := lt_of_lt_of_le hk (Nat.min_le_left _ _)
    refine ⟨transactions[k], List.getElem?_eq_getElem hkn, ?_⟩
    have hmem : transactions[k] ∈ transactions.take 10 := by
      rw [List.mem_iff_getElem?]
      exact ⟨k, by simp [List.getElem?_take, hk10, List.getElem?_eq_getElem hkn]⟩
    have hp := h _ hmem
    have hrow : (StatementResults.tableRows rt transactions)[k]? =
        some (StatementResults.txnRow rt transactions[k]) := by
      simp [StatementResults.tableRows, List.getElem?_take, hk10,
        List.getElem?_eq_getElem hkn]
    rw [hrow]
    generalize transactions[k] = t at hp
    cases t <;> first | rfl | simp [StatementResults.isPresent] at hp
  · intro data hd
    unfold StatementResults.transactionsCard
    rw [hd]
    cases transactions with
    | nil => rfl
    | cons t ts => simp
  · simp [StatementResults.tableRows, Examples.fifteenTransactions]

/-- An instance of C14: the fifteen-entry statement has ten rows and its fourth
row is built from its fourth transaction. -/
theorem tableRows_first_ten_witness :
    ((StatementResults.tableRows Examples.utcRuntime Examples.fifteenTransactions).length =
      min Examples.fifteenTransactions.length 10 ∧
    ∃ t : JsVal, Examples.fifteenTransactions[3]? = some t ∧
      (StatementResults.tableRows Examples.utcRuntime Examples.fifteenTransactions)[3]? =
        some (some
          { date := (DateArg.ofJsVal (t.optGet "transactionDate")).map
              (formatDate Examples.utcRuntime),
            description :=
              ((t.optGet "description").or (t.optGet "merchantName")).or (JsVal.str "N/A"),
            amount := (Amount.ofJsVal (t.optGet "amount")).bind formatAmount })) ∧
    ((StatementResults.tableRows Examples.utcRuntime Examples.fifteenTransactions)[3]?).map
        (Option.map (fun r => (r.date, r.amount))) =
      some (some (some "10 Oct 2025", some "₹300.50")) ∧
    ((StatementResults.tableRows Examples.utcRuntime Examples.fifteenTransactions)[3]?).map
        (Option.map (fun r => r.description)) =
      some (some (JsVal.str "Purchase 3")) :=
  let h := tableRows_first_ten Examples.utcRuntime Examples.fifteenTransactions
    (by decide)
  ⟨⟨h.1, h.2.1 3 (by decide)⟩, by decide!, rfl⟩

/-- Claim C15, as stated, fails: with fifteen transactions the indicator reads
`Showing 10 of 15 transactions`; the number it states is the total 15, not the
count of remaining entries 5. -/
theorem truncationNote_states_total :
    Examples.fifteenTransactions.length = 15 ∧
    StatementResults.truncationNote Examples.fifteenTransactions =
      some [StatementResults.Fragment.text "Showing 10 of ", StatementResults.Fragment.number 15,
        StatementResults.Fragment.text " transactions"] ∧
    (StatementResults.truncationNote Examples.fifteenTransactions).map
      StatementResults.Fragment.render = some "Showing 10 of 15 transactions" ∧
    ¬ (∃ fs : List StatementResults.Fragment,
        StatementResults.truncationNote Examples.fifteenTransactions = some fs ∧
        StatementResults.Fragment.number (15 - 10) ∈ fs) := by
  refine ⟨by decide, by decide, by decide, ?_⟩
  rintro ⟨fs, hfs, hmem⟩
  have h15 : StatementResults.truncationNote Examples.fifteenTransactions =
      some [StatementResults.Fragment.text "Showing 10 of ", StatementResults.Fragment.number 15,
        StatementResults.Fragment.text " transactions"] := by decide
  rw [h15, Option.some.injEq] at hfs
  subst hfs
  revert hmem
  decide

/-- Claim C15, amended: for a transactions list of `n > 10` entries the display
carries the indicator `Showing 10 of n transactions`, which states the number of
rows shown and the total `n` (the table then has ten rows, so `n - 10` entries
are not shown); for `n ≤ 10` no indicator is shown. -/
theorem truncationNote_spec (rt : DateRuntime) (transactions : List JsVal) :
    StatementResults.truncationNote transactions =
      (if 10 < transactions.length then
        some [StatementResults.Fragment.text "Showing 10 of ",
          StatementResults.Fragment.number transactions.length,
          StatementResults.Fragment.text " transactions"]
       else none) ∧
    (10 < transactions.length →
      (StatementResults.truncationNote transactions).map StatementResults.Fragment.render =
        some ("Showing 10 of " ++ toString transactions.length ++ " transactions") ∧
      transactions.length - (StatementResults.tableRows rt transactions).length =
        transactions.length - 10) ∧
    (transactions.length ≤ 10 → StatementResults.truncationNote transactions = none) ∧
    (∀ data : JsVal, data.optGet "transactions" = JsVal.arr transactions →
      ((StatementResults.transactionsCard rt data).map (fun c => c.note)).getD none =
        StatementResults.truncationNote transactions) := by
  refine ⟨rfl, ?_, ?_, ?_⟩
  · intro h
    refine ⟨?_, ?_⟩
    · simp [StatementResults.truncationNote, h, StatementResults.Fragment.render, String.join]
    · have : min 10 transactions.length = 10 := Nat.min_eq_left (Nat.le_of_lt h)
      simp [StatementResults.tableRows, this]
  · intro h
    simp [StatementResults.truncationNote, Nat.not_lt.mpr h]
  · intro data hd
    unfold StatementResults.transactionsCard
    rw [hd]
    cases transactions with
    | nil => rfl
    | cons t ts => simp

/-- An instance of C15: fifteen transactions give `Showing 10 of 15
transactions`, and five entries are not shown. -/
theorem truncationNote_spec_witness :
    (StatementResults.truncationNote Examples.fifteenTransactions).map
      StatementResults.Fragment.render =
        some ("Showing 10 of " ++ toString Examples.fifteenTransactions.length ++
          " transactions") ∧
    Examples.fifteenTransactions.length -
      (StatementResults.tableRows Examples.utcRuntime Examples.fifteenTransactions).length =
        Examples.fifteenTransactions.length - 10 :=
  (truncationNote_spec Examples.utcRuntime Examples.fifteenTransactions).2.1 (by decide)

/-! ## Results view: the additional information block -/

/-- Claim C16 fails on a result whose three amounts are present and zero: all of
`creditLimit`, `availableCredit` and `minimumAmountDue` are present, yet the
block is not rendered and the text `0` is rendered in its place. The block is
rendered exactly when one of the three is truthy. -/
theorem additionalInfo_hidden_for_zero_amounts :
    StatementResults.isPresent (Examples.zeroAmounts.optGet "creditLimit") = true ∧
    StatementResults.isPresent (Examples.zeroAmounts.optGet "availableCredit") = true ∧
    StatementResults.isPresent (Examples.zeroAmounts.optGet "minimumAmountDue") = true ∧
    StatementResults.showsAdditionalInfo Examples.zeroAmounts = false ∧
    StatementResults.additionalInfoSlot Examples.zeroAmounts = StatementResults.Slot.text "0" ∧
    formatAmount (Amount.number (JsNumber.finite false 0 0)) = some "₹0.00" ∧
    (∀ data : JsVal, StatementResults.showsAdditionalInfo data =
      ((data.optGet "creditLimit").truthy || (data.optGet "availableCredit").truthy ||
        (data.optGet "minimumAmountDue").truthy)) := by
  refine ⟨rfl, rfl, rfl, by decide!, by decide!, by decide!, ?_⟩
  intro data
  unfold StatementResults.showsAdditionalInfo StatementResults.additionalInfoGuard JsVal.or
  cases h1 : (data.optGet "creditLimit").truthy <;>
    cases h2 : (data.optGet "availableCredit").truthy <;> simp [h1, h2]

/-! ## Formatter: `formatDate` -/

/-- A decimal digit character is not the letter `N`. -/
theorem Number.digitChar_ne_N (k : Nat) (hk : k < 10) : Nat.digitChar k ≠ 'N' := by
  interval_cases k <;> decide

/-- The text of a valid date starts with a digit, so it is not `N/A`. -/
theorem toLocaleDateString_ne_NA (rt : DateRuntime) (ms : Int) :
    toLocaleDateString rt (some ms) ≠ "N/A" := by
  intro h
  have hd := congrArg String.data h
  simp only [toLocaleDateString, String.data_append, Number.twoDigits, List.cons_append,
    List.nil_append] at hd
  have hhead := (List.cons.inj hd).1
  exact Number.digitChar_ne_N _ (Nat.mod_lt _ (by decide)) hhead

/-- Claim C19 fails on the string `not-a-date`: a string the engine cannot parse
gives an invalid date, whose `toLocaleDateString` is the text `Invalid Date`
and does not throw, so `formatDate` returns `Invalid Date` and not its input
(and the empty string gives `N/A`). -/
theorem formatDate_unparsable_gives_invalid_date :
    (∀ (rt : DateRuntime) (s : String), s ≠ "" → rt.parse s = none →
      formatDate rt (DateArg.string s) = "Invalid Date") ∧
    Examples.utcRuntime.parse "not-a-date" = none ∧
    formatDate Examples.utcRuntime (DateArg.string "not-a-date") = "Invalid Date" ∧
    formatDate Examples.utcRuntime (DateArg.string "not-a-date") ≠ "not-a-date" ∧
    (∀ rt : DateRuntime, formatDate rt (DateArg.string "") = "N/A") := by
  have key : ∀ (rt : DateRuntime) (s : String), s ≠ "" → rt.parse s = none →
      formatDate rt (DateArg.string s) = "Invalid Date" := by
    intro rt s hs hp
    simp [formatDate, hs, hp, toLocaleDateString]
  refine ⟨key, by decide!, key _ _ (by decide) (by decide!), ?_, fun rt => rfl⟩
  rw [key _ _ (by decide) (by decide!)]
  decide

/-- Claim C20: `formatDate(null)` and `formatDate(undefined)` return `N/A`, and
no non-empty string that the engine parses as a date returns `N/A`: it returns
the text of that date, which starts with the two digits of the day. -/
theorem formatDate_not_available (rt : DateRuntime) :
    formatDate rt DateArg.null = "N/A" ∧
    formatDate rt DateArg.undefined = "N/A" ∧
    (∀ s : String, s ≠ "" → (rt.parse s).isSome = true →
      formatDate rt (DateArg.string s) ≠ "N/A" ∧
      formatDate rt (DateArg.string s) = toLocaleDateString rt (rt.parse s)) := by
  refine ⟨rfl, rfl, ?_⟩
  intro s hs hp
  obtain ⟨ms, hms⟩ := Option.isSome_iff_exists.mp hp
  have heq : formatDate rt (DateArg.string s) = toLocaleDateString rt (rt.parse s) := by
    simp [formatDate, hs]
  refine ⟨?_, heq⟩
  rw [heq, hms]
  exact toLocaleDateString_ne_NA rt ms

/-- An instance of C20: in the sample runtime the string `2025-11-01` is a
date and is not rendered as `N/A`. -/
theorem formatDate_not_available_witness :
    formatDate Examples.utcRuntime (DateArg.string "2025-11-01") ≠ "N/A" :=
  ((formatDate_not_available Examples.utcRuntime).2.2 "2025-11-01" (by decide)
    (by decide!)).1

/-! ## Formatter: `formatAmount` -/

/-- Claim C18 fails on the string `abc`: `parseFloat('abc')` is `NaN`, whose
`toLocaleString` is the text `NaN` and does not throw, so `formatAmount`
returns the currency sign followed by `NaN` and not by the input; the same
holds for every string without a numeric prefix. -/
theorem formatAmount_unparsable_gives_NaN :
    Number.parseFloat "abc" = some JsNumber.nan ∧
    formatAmount (Amount.string "abc") = some "₹NaN" ∧
    formatAmount (Amount.string "abc") ≠ some "₹abc" ∧
    (∀ s : String, Number.parseFloat s = some JsNumber.nan →
      formatAmount (Amount.string s) = some "₹NaN") := by
  have key : ∀ s : String, Number.parseFloat s = some JsNumber.nan →
      formatAmount (Amount.string s) = some "₹NaN" := by
    intro s hs
    simp [formatAmount, hs, Number.toLocaleString]
  have habc : Number.parseFloat "abc" = some JsNumber.nan := by decide!
  refine ⟨habc, key _ habc, ?_, key⟩
  rw [key _ habc]
  decide

/-- A decimal digit character is not a comma. -/
theorem Number.digitChar_ne_comma (k : Nat) (hk : k < 10) : Nat.digitChar k ≠ ',' := by
  interval_cases k <;> decide

/-- The digits `Nat.toDigitsCore` adds are not commas. -/
theorem Number.toDigitsCore_no_comma (fuel : Nat) :
    ∀ (n : Nat) (ds : List Char), (∀ c ∈ ds, c ≠ ',') →
      ∀ c ∈ Nat.toDigitsCore 10 fuel n ds, c ≠ ',' := by
  induction fuel with
  | zero => exact fun n ds h c hc => h c hc
  | succ fuel ih =>
    intro n ds h c hc
    have hds : ∀ c ∈ Nat.digitChar (n % 10) :: ds, c ≠ ',' := by
      intro c hc
      rcases List.mem_cons.mp hc with rfl | hc
      · exact Number.digitChar_ne_comma _ (Nat.mod_lt _ (by decide))
      · exact h c hc
    simp only [Nat.toDigitsCore] at hc
    split_ifs at hc
    · exact hds c hc
    · exact ih _ _ hds c hc

/-- The decimal digits of a number contain no comma. -/
theorem Number.toDigits_no_comma (n : Nat) : ∀ c ∈ Nat.toDigits 10 n, c ≠ ',' :=
  Number.toDigitsCore_no_comma _ _ _ (fun c hc => absurd hc (List.not_mem_nil c))

/-- Removing the commas from the pairs gives the digits back. -/
theorem Number.pairsRev_filter :
    ∀ p : List Char, (∀ c ∈ p, c ≠ ',') →
      (Number.pairsRev p).filter (fun c => c != ',') = p
  | [], _ => rfl
  | [a], h => by
    have ha : a ≠ ',' := h a (List.mem_singleton.mpr rfl)
    simp [Number.pairsRev, ha]
  | a :: b :: rest, h => by
    have ha : a ≠ ',' := h a (by simp)
    have hb : b ≠ ',' := h b (by simp)
    have hrest : ∀ c ∈ rest, c ≠ ',' := fun c hc => h c (by simp [hc])
    simp [Number.pairsRev, ha, hb, Number.pairsRev_filter rest hrest]

/-- In the pairs, the commas sit exactly at the positions divisible by three. -/
theorem Number.pairsRev_comma :
    ∀ p : List Char, (∀ c ∈ p, c ≠ ',') →
      ∀ j : Nat, j < (Number.pairsRev p).length →
        ((Number.pairsRev p)[j]? = some ',' ↔ j % 3 = 0)
  | [], _, j, hj => by simp [Number.pairsRev] at hj
  | [a], h, j, hj => by
    have ha : a ≠ ',' := h a (List.mem_singleton.mpr rfl)
    simp only [Number.pairsRev, List.length_cons, List.length_nil] at hj
    interval_cases j <;> simp [Number.pairsRev, ha]
  | a :: b :: rest, h, j, hj => by
    have ha : a ≠ ',' := h a (by simp)
    have hb : b ≠ ',' := h b (by simp)
    have hrest : ∀ c ∈ rest, c ≠ ',' := fun c hc => h c (by simp [hc])
    match j, hj with
    | 0, _ => simp [Number.pairsRev]
    | 1, _ => simp [Number.pairsRev, ha]
    | 2, _ => simp [Number.pairsRev, hb]
    | j + 3, hj =>
      have hj' : j < (Number.pairsRev rest).length := by
        simp only [Number.pairsRev, List.length_cons] at hj
        omega
      have := Number.pairsRev_comma rest hrest j hj'
      simp only [Number.pairsRev, List.getElem?_cons_succ]
      rw [this]
      omega

/-- Removing the commas from the grouped digits gives the digits back. -/
theorem Number.groupIndian_filter (ds : List Char) (h : ∀ c ∈ ds, c ≠ ',') :
    (Number.groupIndian ds).filter (fun c => c != ',') = ds := by
  have hr : ∀ c ∈ ds.reverse, c ≠ ',' := fun c hc => h c (List.mem_reverse.mp hc)
  have htake : (ds.reverse.take 3).filter (fun c => c != ',') = ds.reverse.take 3 := by
    rw [List.filter_eq_self]
    intro c hc
    simpa using hr c (List.mem_of_mem_take hc)
  have hdrop : ∀ c ∈ ds.reverse.drop 3, c ≠ ',' := fun c hc => hr c (List.mem_of_mem_drop hc)
  unfold Number.groupIndian Number.groupRev
  rw [List.filter_reverse, List.filter_append, htake, Number.pairsRev_filter _ hdrop,
    List.take_append_drop, List.reverse_reverse]

/-- In the grouped digits, counted from the right, the commas sit exactly at the
positions from three on that are divisible by three: after the last three
digits and then after every two. -/
theorem Number.groupIndian_comma (ds : List Char) (h : ∀ c ∈ ds, c ≠ ',') (i : Nat)
    (hi : i < (Number.groupIndian ds).length) :
    (Number.groupIndian ds).reverse[i]? = some ',' ↔ 3 ≤ i ∧ i % 3 = 0 := by
  have hr : ∀ c ∈ ds.reverse, c ≠ ',' := fun c hc => h c (List.mem_reverse.mp hc)
  have hdrop : ∀ c ∈ ds.reverse.drop 3, c ≠ ',' := fun c hc => hr c (List.mem_of_mem_drop hc)
  unfold Number.groupIndian at hi ⊢
  rw [List.reverse_reverse]
  rw [List.length_reverse] at hi
  unfold Number.groupRev at hi ⊢
  rw [List.length_append] at hi
  have hlen : (ds.reverse.take 3).length = min 3 ds.reverse.length := List.length_take _ _
  by_cases h3 : ds.reverse.length < 3
  · have hd : ds.reverse.drop 3 = [] := List.drop_eq_nil_of_le (by omega)
    rw [hd] at hi ⊢
    simp only [Number.pairsRev, List.length_nil, Nat.add_zero, List.append_nil] at hi ⊢
    constructor
    · intro hc
      exact absurd (List.mem_of_mem_take (List.getElem?_mem hc)) (fun hm => hr _ hm rfl)
    · intro hc
      omega
  · have hl3 : (ds.reverse.take 3).length = 3 := by omega
    by_cases hi3 : i < 3
    · rw [List.getElem?_append_left (by omega)]
      constructor
      · intro hc
        exact absurd (List.mem_of_mem_take (List.getElem?_mem hc)) (fun hm => hr _ hm rfl)
      · intro hc
        omega
    · rw [List.getElem?_append_right (by omega), hl3,
        Number.pairsRev_comma _ hdrop (i - 3) (by omega)]
      omega

/-- The rounded hundredths are `m * 10 ^ e * 100` rounded to the nearest
integer, a half being rounded up. -/
theorem Number.roundedHundredths_spec (m : Nat) (e : Int) :
    (Number.roundedHundredths m e : Rat) ≤ (m : Rat) * 10 ^ (e + 2) + 1 / 2 ∧
    (m : Rat) * 10 ^ (e + 2) + 1 / 2 < (Number.roundedHundredths m e : Rat) + 1 := by
  unfold Number.roundedHundredths
  generalize e + 2 = j
  cases j with
  | ofNat n =>
    simp only [Int.ofNat_eq_coe, zpow_natCast]
    push_cast
    constructor <;> linarith
  | negSucc k =>
    have h2K : 0 < 2 * 10 ^ (k + 1) := by positivity
    have h2Kq : (0 : Rat) < ((2 * 10 ^ (k + 1) : Nat) : Rat) := by exact_mod_cast h2K
    have hval : (m : Rat) * 10 ^ (Int.negSucc k) + 1 / 2 =
        ((2 * m + 10 ^ (k + 1) : Nat) : Rat) / ((2 * 10 ^ (k + 1) : Nat) : Rat) := by
      rw [zpow_negSucc]
      push_cast
      field_simp
      ring
    rw [hval]
    constructor
    · rw [le_div_iff₀ h2Kq]
      exact_mod_cast Nat.div_mul_le_self _ _
    · rw [div_lt_iff₀ h2Kq]
      have hm := Nat.mod_lt (2 * m + 10 ^ (k + 1)) h2K
      have hdm := Nat.div_add_mod (2 * m + 10 ^ (k + 1)) (2 * 10 ^ (k + 1))
      have hnat : 2 * m + 10 ^ (k + 1) <
          ((2 * m + 10 ^ (k + 1)) / (2 * 10 ^ (k + 1)) + 1) * (2 * 10 ^ (k + 1)) := by
        calc 2 * m + 10 ^ (k + 1)
            = 2 * 10 ^ (k + 1) * ((2 * m + 10 ^ (k + 1)) / (2 * 10 ^ (k + 1))) +
                (2 * m + 10 ^ (k + 1)) % (2 * 10 ^ (k + 1)) := hdm.symm
          _ < 2 * 10 ^ (k + 1) * ((2 * m + 10 ^ (k + 1)) / (2 * 10 ^ (k + 1))) +
                2 * 10 ^ (k + 1) := Nat.add_lt_add_left hm _
          _ = ((2 * m + 10 ^ (k + 1)) / (2 * 10 ^ (k + 1)) + 1) * (2 * 10 ^ (k + 1)) := by
              ring
      exact_mod_cast hnat

/-- Claim C17: `formatAmount(null)` and `formatAmount(undefined)` return
`₹0.00`; a string is rendered as the number `parseFloat` reads from it (white
space, sign, digits, point and exponent as in the instances); and a finite
number, of sign `negative` and shortest decimal `m * 10 ^ e`, is rendered as the
currency sign, a minus sign when negative, the decimal digits of the integer
part grouped the `en-IN` way (a comma after the last three digits and then
after every two), a point and exactly two fractional digits, the value shown
being `m * 10 ^ e` rounded to the nearest hundredth. So `formatAmount(4500.5)`
is `₹4,500.50` and `formatAmount('890.5')` is `₹890.50`. -/
theorem formatAmount_two_decimals :
    formatAmount Amount.null = some "₹0.00" ∧
    formatAmount Amount.undefined = some "₹0.00" ∧
    formatAmount (Amount.number (JsNumber.finite false 45005 (-1))) = some "₹4,500.50" ∧
    formatAmount (Amount.string "890.5") = some "₹890.50" ∧
    formatAmount (Amount.number (JsNumber.finite true 0 0)) = some "₹-0.00" ∧
    formatAmount (Amount.number (JsNumber.finite false 11805916207174113 5)) =
      some "₹1,18,05,91,62,07,17,41,13,00,000.00" ∧
    (Number.parseFloat "890.5" = some (JsNumber.finite false 8905 (-1)) ∧
      Number.parseFloat "  -12.50abc" = some (JsNumber.finite true 1250 (-2)) ∧
      Number.parseFloat "+7" = some (JsNumber.finite false 7 0) ∧
      Number.parseFloat "1e3" = some (JsNumber.finite false 1 3) ∧
      Number.parseFloat "12E-1" = some (JsNumber.finite false 12 (-1)) ∧
      Number.parseFloat "1.5e+2x" = some (JsNumber.finite false 15 1) ∧
      Number.parseFloat "3e" = some (JsNumber.finite false 3 0) ∧
      Number.parseFloat ".5" = some (JsNumber.finite false 5 (-1)) ∧
      Number.parseFloat "5." = some (JsNumber.finite false 5 0) ∧
      Number.parseFloat "-0" = some (JsNumber.finite true 0 0) ∧
      Number.parseFloat "-Infinity" = some (JsNumber.infinity true) ∧
      Number.parseFloat "9007199254740993" = none) ∧
    (∀ (s : String) (n : JsNumber), Number.parseFloat s = some n →
      formatAmount (Amount.string s) = formatAmount (Amount.number n)) ∧
    (∀ (negative : Bool) (m : Nat) (e : Int), ∃ (r : Nat) (body : List Char),
      formatAmount (Amount.number (JsNumber.finite negative m e)) =
        some ("₹" ++ String.mk ((if negative then ['-'] else []) ++ body ++
          ['.', Nat.digitChar (r / 10 % 10), Nat.digitChar (r % 10)])) ∧
      (r : Rat) ≤ (m : Rat) * 10 ^ (e + 2) + 1 / 2 ∧
      (m : Rat) * 10 ^ (e + 2) + 1 / 2 < (r : Rat) + 1 ∧
      body.filter (fun c => c != ',') = Nat.toDigits 10 (r / 100) ∧
      ∀ i : Nat, i < body.length → (body.reverse[i]? = some ',' ↔ 3 ≤ i ∧ i % 3 = 0)) := by
  refine ⟨rfl, rfl, by decide!, by decide!, by decide!, by decide!, ?_, ?_, ?_⟩
  · refine ⟨by decide!, by decide!, by decide!, by decide!, by decide!, by decide!,
      by decide!, by decide!, by decide!, by decide!, by decide!, by decide!⟩
  · intro s n hs
    simp [formatAmount, hs]
  · intro negative m e
    refine ⟨Number.roundedHundredths m e,
      Number.groupIndian (Nat.toDigits 10 (Number.roundedHundredths m e / 100)), ?_,
      (Number.roundedHundredths_spec m e).1, (Number.roundedHundredths_spec m e).2,
      Number.groupIndian_filter _ (Number.toDigits_no_comma _),
      fun i hi => Number.groupIndian_comma _ (Number.toDigits_no_comma _) i hi⟩
    simp [formatAmount, Number.toLocaleString, Number.fixed2, Number.twoDigits]

/-- An instance of C17: the string `890.5` is read as the number 890.5 and is
rendered as that number. -/
theorem formatAmount_two_decimals_witness :
    formatAmount (Amount.string "890.5") =
      formatAmount (Amount.number (JsNumber.finite false 8905 (-1))) :=
  formatAmount_two_decimals.2.2.2.2.2.2.2.1 "890.5" (JsNumber.finite false 8905 (-1))
    (by decide!)

/-! ## Formatter: `formatFileSize` -/

/-- The unit index of a byte count that lies between two consecutive powers of
1024, up to `1024 ^ 4` bytes. -/
theorem formatFileSize.unitIndex_eq (engineIndex : Nat → Nat) (b i : Nat)
    (hb : b ≤ 1024 ^ 4) (hlo : 1024 ^ i ≤ b) (hhi : b < 1024 ^ (i + 1)) :
    formatFileSize.unitIndex engineIndex b = i := by
  unfold formatFileSize.unitIndex
  rw [if_pos hb]
  exact Nat.log_eq_of_pow_le_of_lt_pow hlo hhi

/-- The unit index of a positive byte count below `1024 ^ 4` brackets it between
two powers of 1024. -/
theorem formatFileSize.unitIndex_bounds (engineIndex : Nat → Nat) (b : Nat) (hb : 1 ≤ b)
    (h4 : b < 1024 ^ 4) :
    1024 ^ formatFileSize.unitIndex engineIndex b ≤ b ∧
    b < 1024 ^ (formatFileSize.unitIndex engineIndex b + 1) ∧
    formatFileSize.unitIndex engineIndex b < 4 := by
  unfold formatFileSize.unitIndex formatFileSize.k
  rw [if_pos (Nat.le_of_lt h4)]
  exact ⟨Nat.pow_log_le_self 1024 (by omega), Nat.lt_pow_succ_log_self (by decide) b,
    Nat.log_lt_of_lt_pow (by omega) h4⟩

/-- The result for a positive byte count whose unit index is known. -/
theorem formatFileSize.eq_of_unitIndex (engineIndex : Nat → Nat) (b i : Nat) (hb : b ≠ 0)
    (hi : formatFileSize.unitIndex engineIndex b = i) :
    formatFileSize engineIndex b =
      Number.hundredthsToString (formatFileSize.roundedHundredths b i) ++ " " ++
        formatFileSize.unitText i := by
  simp [formatFileSize, hb, hi]

/-- The rounded hundredths are `bytes / 1024 ^ i * 100` rounded to the nearest
integer, a half being rounded up. -/
theorem formatFileSize.roundedHundredths_half_up (b i : Nat) :
    (formatFileSize.roundedHundredths b i : Rat) ≤ (b : Rat) / 1024 ^ i * 100 + 1 / 2 ∧
    (b : Rat) / 1024 ^ i * 100 + 1 / 2 < (formatFileSize.roundedHundredths b i : Rat) + 1 := by
  have hK : 0 < 1024 ^ i := by positivity
  have h2K : 0 < 2 * 1024 ^ i := by omega
  have h2Kq : (0 : Rat) < ((2 * 1024 ^ i : Nat) : Rat) := by exact_mod_cast h2K
  have hval : (b : Rat) / 1024 ^ i * 100 + 1 / 2 =
      ((2 * (b * 100) + 1024 ^ i : Nat) : Rat) / ((2 * 1024 ^ i : Nat) : Rat) := by
    push_cast
    field_simp
    ring
  rw [hval]
  unfold formatFileSize.roundedHundredths formatFileSize.k
  constructor
  · rw [le_div_iff₀ h2Kq]
    exact_mod_cast Nat.div_mul_le_self _ _
  · rw [div_lt_iff₀ h2Kq]
    have hm := Nat.mod_lt (2 * (b * 100) + 1024 ^ i) h2K
    have hdm := Nat.div_add_mod (2 * (b * 100) + 1024 ^ i) (2 * 1024 ^ i)
    have hnat : 2 * (b * 100) + 1024 ^ i <
        ((2 * (b * 100) + 1024 ^ i) / (2 * 1024 ^ i) + 1) * (2 * 1024 ^ i) := by
      calc 2 * (b * 100) + 1024 ^ i
          = 2 * 1024 ^ i * ((2 * (b * 100) + 1024 ^ i) / (2 * 1024 ^ i)) +
              (2 * (b * 100) + 1024 ^ i) % (2 * 1024 ^ i) := hdm.symm
        _ < 2 * 1024 ^ i * ((2 * (b * 100) + 1024 ^ i) / (2 * 1024 ^ i)) + 2 * 1024 ^ i :=
            Nat.add_lt_add_left hm _
        _ = ((2 * (b * 100) + 1024 ^ i) / (2 * 1024 ^ i) + 1) * (2 * 1024 ^ i) := by ring
    exact_mod_cast hnat

/-- Claim C21, as stated, fails at 1048575 bytes: the unit index is 1 (KB), the
quotient 1023.999... is rounded to 1024.00, and the result reads `1024 KB`,
whatever the engine. -/
theorem formatFileSize_reads_1024_KB :
    1 ≤ 1048575 ∧ 1048575 < 1024 ^ 4 ∧
    (∀ engineIndex : Nat → Nat, formatFileSize.unitIndex engineIndex 1048575 = 1) ∧
    formatFileSize.roundedHundredths 1048575 1 = 102400 ∧
    (∀ engineIndex : Nat → Nat, formatFileSize engineIndex 1048575 = "1024 KB") := by
  have hi : ∀ engineIndex : Nat → Nat, formatFileSize.unitIndex engineIndex 1048575 = 1 :=
    fun e => formatFileSize.unitIndex_eq e 1048575 1 (by decide) (by decide) (by decide)
  refine ⟨by decide, by decide, hi, by decide!, fun e => ?_⟩
  rw [formatFileSize.eq_of_unitIndex e 1048575 1 (by decide) (hi e)]
  decide!

/-- Claim C21, amended: for a byte count `b` with `1 ≤ b < 1024 ^ 4`,
`formatFileSize` picks the unit index `i` with `1024 ^ i ≤ b < 1024 ^ (i + 1)`
from (Bytes, KB, MB, GB) and displays `b / 1024 ^ i` rounded to two decimals, a
half being rounded up; the quotient is strictly below 1024 and the displayed
number is at most 1024, which it reads exactly when `b` is within
`0.005 * 1024 ^ i` of the next threshold. -/
theorem formatFileSize_unit_and_mantissa (engineIndex : Nat → Nat) (b : Nat) (h1 : 1 ≤ b)
    (h2 : b < 1024 ^ 4) :
    1024 ^ formatFileSize.unitIndex engineIndex b ≤ b ∧
    b < 1024 ^ (formatFileSize.unitIndex engineIndex b + 1) ∧
    formatFileSize.unitIndex engineIndex b < 4 ∧
    formatFileSize.sizes.get? (formatFileSize.unitIndex engineIndex b) =
      some (formatFileSize.unitText (formatFileSize.unitIndex engineIndex b)) ∧
    formatFileSize engineIndex b =
      Number.hundredthsToString
          (formatFileSize.roundedHundredths b (formatFileSize.unitIndex engineIndex b)) ++
        " " ++ formatFileSize.unitText (formatFileSize.unitIndex engineIndex b) ∧
    (formatFileSize.roundedHundredths b (formatFileSize.unitIndex engineIndex b) : Rat) ≤
      (b : Rat) / 1024 ^ formatFileSize.unitIndex engineIndex b * 100 + 1 / 2 ∧
    (b : Rat) / 1024 ^ formatFileSize.unitIndex engineIndex b * 100 + 1 / 2 <
      (formatFileSize.roundedHundredths b (formatFileSize.unitIndex engineIndex b) : Rat) + 1 ∧
    (b : Rat) / 1024 ^ formatFileSize.unitIndex engineIndex b < 1024 ∧
    formatFileSize.roundedHundredths b (formatFileSize.unitIndex engineIndex b) ≤ 102400 ∧
    (formatFileSize.roundedHundredths b (formatFileSize.unitIndex engineIndex b) = 102400 ↔
      204799 * 1024 ^ formatFileSize.unitIndex engineIndex b ≤ 200 * b) := by
  obtain ⟨hlo, hhi, hi4⟩ := formatFileSize.unitIndex_bounds engineIndex b h1 h2
  generalize hi : formatFileSize.unitIndex engineIndex b = i at hlo hhi hi4 ⊢
  have hK : 0 < 1024 ^ i := by positivity
  have hhi' : b < 1024 * 1024 ^ i := by
    rw [pow_succ] at hhi
    omega
  have hle : formatFileSize.roundedHundredths b i ≤ 102400 := by
    unfold formatFileSize.roundedHundredths formatFileSize.k
    apply Nat.le_of_lt_succ
    rw [Nat.div_lt_iff_lt_mul (by omega)]
    omega
  refine ⟨hlo, hhi, hi4, ?_, ?_, (formatFileSize.roundedHundredths_half_up b _).1,
    (formatFileSize.roundedHundredths_half_up b _).2, ?_, hle, ?_⟩
  · interval_cases i <;> rfl
  · exact formatFileSize.eq_of_unitIndex engineIndex b i (by omega) hi
  · have hKq : (0 : Rat) < (1024 : Rat) ^ i := by positivity
    rw [div_lt_iff₀ hKq]
    exact_mod_cast hhi'
  · constructor
    · intro heq
      have hge : 102400 ≤ formatFileSize.roundedHundredths b i := le_of_eq heq.symm
      unfold formatFileSize.roundedHundredths formatFileSize.k at hge
      rw [Nat.le_div_iff_mul_le (by omega)] at hge
      omega
    · intro hge
      apply le_antisymm hle
      unfold formatFileSize.roundedHundredths formatFileSize.k
      rw [Nat.le_div_iff_mul_le (by omega)]
      omega

/-- An instance of C21: 1536 bytes are shown in KB as `1.5 KB`. -/
theorem formatFileSize_unit_and_mantissa_witness :
    formatFileSize.unitIndex (fun _ => 0) 1536 < 4 ∧
    formatFileSize (fun _ => 0) 1536 =
      Number.hundredthsToString
          (formatFileSize.roundedHundredths 1536 (formatFileSize.unitIndex (fun _ => 0) 1536)) ++
        " " ++ formatFileSize.unitText (formatFileSize.unitIndex (fun _ => 0) 1536) ∧
    formatFileSize (fun _ => 0) 1536 = "1.5 KB" :=
  ⟨(formatFileSize_unit_and_mantissa (fun _ => 0) 1536 (by decide) (by decide)).2.2.1,
   (formatFileSize_unit_and_mantissa (fun _ => 0) 1536 (by decide) (by decide)).2.2.2.2.1,
   (formatFileSize.eq_of_unitIndex (fun _ => 0) 1536 1 (by decide)
      (formatFileSize.unitIndex_eq (fun _ => 0) 1536 1 (by decide) (by decide)
        (by decide))).trans (by decide!)⟩

/-- Claim C23, as stated, fails at `1024 ^ 4` bytes (1 TiB): the unit index is
4, outside the four-entry table, and the result reads `1 undefined`, whatever
the engine. -/
theorem formatFileSize_index_out_of_range :
    formatFileSize.sizes.length = 4 ∧
    (∀ engineIndex : Nat → Nat, formatFileSize.unitIndex engineIndex 1099511627776 = 4) ∧
    formatFileSize.sizes.get? 4 = none ∧
    (∀ engineIndex : Nat → Nat, formatFileSize engineIndex 1099511627776 = "1 undefined") := by
  have hi : ∀ engineIndex : Nat → Nat,
      formatFileSize.unitIndex engineIndex 1099511627776 = 4 :=
    fun e => formatFileSize.unitIndex_eq e 1099511627776 4 (by decide) (by decide) (by decide)
  refine ⟨rfl, hi, rfl, fun e => ?_⟩
  rw [formatFileSize.eq_of_unitIndex e 1099511627776 4 (by decide) (hi e)]
  decide!

/-- Claim C23, amended: `formatFileSize` returns `0 Bytes` for 0 and, for every
byte count `1 ≤ b < 1024 ^ 4`, a number followed by a space and one of the four
unit names, the index being inside the table; this covers every size the upload
component passes to it, the size of a file that `validateFile` accepted. -/
theorem formatFileSize_total_below_TiB :
    (∀ engineIndex : Nat → Nat, formatFileSize engineIndex 0 = "0 Bytes") ∧
    (∀ (engineIndex : Nat → Nat) (b : Nat), 1 ≤ b → b < 1024 ^ 4 →
      formatFileSize.unitIndex engineIndex b < formatFileSize.sizes.length ∧
      ∃ unit ∈ formatFileSize.sizes,
        formatFileSize engineIndex b =
          Number.hundredthsToString
              (formatFileSize.roundedHundredths b
                (formatFileSize.unitIndex engineIndex b)) ++ " " ++ unit) ∧
    (∀ s : UploadState, FileUpload.Reachable s → ∀ f : File, s.selectedFile = some f →
      f.size ≤ 10485760 ∧ f.size < 1024 ^ 4) := by
  refine ⟨fun e => rfl, ?_, ?_⟩
  · intro e b h1 h2
    obtain ⟨-, -, hi4⟩ := formatFileSize.unitIndex_bounds e b h1 h2
    refine ⟨hi4, formatFileSize.unitText (formatFileSize.unitIndex e b), ?_,
      formatFileSize.eq_of_unitIndex e b _ (by omega) rfl⟩
    generalize formatFileSize.unitIndex e b = i at hi4
    interval_cases i <;> decide
  · intro s hr f hf
    have hv := (validateFile_isValid_iff f).1 (FileUpload.reachable_holdsValid s hr f hf)
    refine ⟨hv.2, lt_of_le_of_lt hv.2 (by decide)⟩

/-- An instance of C23: 204800 bytes, the size of the sample statement, are
shown as `200 KB`. -/
theorem formatFileSize_total_below_TiB_witness :
    formatFileSize.unitIndex (fun _ => 0) 204800 < formatFileSize.sizes.length ∧
    formatFileSize (fun _ => 0) 204800 = "200 KB" :=
  ⟨(formatFileSize_total_below_TiB.2.1 (fun _ => 0) 204800 (by decide) (by decide)).1,
   (formatFileSize.eq_of_unitIndex (fun _ => 0) 204800 1 (by decide)
      (formatFileSize.unitIndex_eq (fun _ => 0) 204800 1 (by decide) (by decide)
        (by decide))).trans (by decide!)⟩

/-! ## API client: the base URL -/

/-- Claim C22 fails when the environment supplies a base URL: with
`VITE_API_BASE_URL = 'https://api.example.com/api/statements'` the constant
`API_BASE_URL` takes that value, but the axios instance is created with the
literal `'http://localhost:8080/api/statements'`, so `/parse`, `/debug` and
`/health` are requested from the default host, in every environment. -/
theorem api_ignores_configured_base_url :
    Api.API_BASE_URL (some "https://api.example.com/api/statements") =
      "https://api.example.com/api/statements" ∧
    Api.API_BASE_URL none = "http://localhost:8080/api/statements" ∧
    (Api.api (some "https://api.example.com/api/statements")).baseURL =
      "http://localhost:8080/api/statements" ∧
    Api.parseURL (some "https://api.example.com/api/statements") =
      "http://localhost:8080/api/statements/parse" ∧
    Api.parseURL (some "https://api.example.com/api/statements") ≠
      Api.combineURLs (Api.API_BASE_URL (some "https://api.example.com/api/statements"))
        "/parse" ∧
    (∀ env : Option String,
      (Api.api env).baseURL = "http://localhost:8080/api/statements" ∧
      Api.parseURL env = "http://localhost:8080/api/statements/parse" ∧
      Api.debugURL env = "http://localhost:8080/api/statements/debug" ∧
      Api.healthURL env = "http://localhost:8080/api/statements/health") := by
  refine ⟨by decide, by decide, rfl, by decide, by decide, fun env => ⟨rfl, ?_, ?_, ?_⟩⟩
  · show Api.combineURLs "http://localhost:8080/api/statements" "/parse" = _
    decide
  · show Api.combineURLs "http://localhost:8080/api/statements" "/debug" = _
    decide
  · show Api.combineURLs "http://localhost:8080/api/statements" "/health" = _
    decide

/-! ## Results view: export -/

/-- Claim C13, as stated, fails on a result that holds an infinity (a credit
limit sent as `1e400`): `JSON.stringify` writes it as `null`, so the clipboard
text and the file content are those of the result with `null` in its place, and
an engine that parses that text back to the `null` result does not yield the
received one. -/
theorem export_loses_infinite_number :
    Json.image Examples.infiniteLimit = Examples.nullLimit ∧
    Examples.infiniteLimit ≠ Examples.nullLimit ∧
    (∀ rt : JsonRuntime,
      StatementResults.handleCopyText rt Examples.infiniteLimit =
        StatementResults.handleCopyText rt Examples.nullLimit ∧
      StatementResults.downloadJSONContent rt Examples.infiniteLimit =
        StatementResults.downloadJSONContent rt Examples.nullLimit) ∧
    (∀ rt : JsonRuntime,
      rt.parse (StatementResults.handleCopyText rt Examples.nullLimit) =
        some Examples.nullLimit →
      rt.parse (StatementResults.handleCopyText rt Examples.infiniteLimit) ≠
        some Examples.infiniteLimit) := by
  have hne : Examples.infiniteLimit ≠ Examples.nullLimit := by
    simp [Examples.infiniteLimit, Examples.nullLimit]
  refine ⟨rfl, hne, fun rt => ⟨rfl, rfl⟩, ?_⟩
  intro rt h hinf
  have hsame : StatementResults.handleCopyText rt Examples.infiniteLimit =
      StatementResults.handleCopyText rt Examples.nullLimit := rfl
  rw [hsame, h, Option.some.injEq] at hinf
  exact hne hinf.symm

/-- Claim C13, amended: for every received parse result `data`, the clipboard
text of `handleCopy` and the file content of `handleDownload` are the same text
`JSON.stringify(data, null, 2)` of the full data; where the engine parses back
what it wrote, parsing that text yields the value `JSON.stringify` wrote, which
is `data` itself when `data` holds no `NaN`, infinity or `undefined`, with every
transaction present, whatever the ten-row cap of the table. -/
theorem export_is_full_serialization (rt : JsonRuntime) (dates : DateRuntime) (data : JsVal)
    (h : rt.parse (rt.render (Json.image data)) = some (Json.image data)) :
    StatementResults.handleCopyText rt data = Json.stringify rt data ∧
    StatementResults.downloadJSONContent rt data = StatementResults.handleCopyText rt data ∧
    rt.parse (StatementResults.handleCopyText rt data) = some (Json.image data) ∧
    rt.parse (StatementResults.downloadJSONContent rt data) = some (Json.image data) ∧
    (Json.image data = data →
      rt.parse (StatementResults.handleCopyText rt data) = some data ∧
      rt.parse (StatementResults.downloadJSONContent rt data) = some data ∧
      ∀ items : List JsVal, data.optGet "transactions" = JsVal.arr items →
        ∃ back : JsVal, rt.parse (StatementResults.downloadJSONContent rt data) = some back ∧
          back.optGet "transactions" = JsVal.arr items ∧
          (StatementResults.tableRows dates items).length = min items.length 10) := by
  refine ⟨rfl, rfl, h, h, ?_⟩
  intro himg
  have hback : rt.parse (StatementResults.handleCopyText rt data) = some data := by
    have h' := h
    rw [himg] at h'
    show rt.parse (rt.render (Json.image data)) = some data
    rw [himg]
    exact h'
  refine ⟨hback, hback, ?_⟩
  intro items hitems
  exact ⟨data, hback, hitems, by simp [StatementResults.tableRows, Nat.min_comm]⟩

/-- An instance of C13: the statement with fifteen transactions comes back from
the exported text with all fifteen, while the table shows ten. -/
theorem export_is_full_serialization_witness :
    Examples.oneDocumentJson.parse
        (StatementResults.handleCopyText Examples.oneDocumentJson Examples.longStatement) =
      some Examples.longStatement ∧
    ∃ back : JsVal,
      Examples.oneDocumentJson.parse
          (StatementResults.downloadJSONContent Examples.oneDocumentJson
            Examples.longStatement) = some back ∧
        back.optGet "transactions" = JsVal.arr Examples.fifteenTransactions ∧
        (StatementResults.tableRows Examples.utcRuntime Examples.fifteenTransactions).length =
          min Examples.fifteenTransactions.length 10 :=
  let h := (export_is_full_serialization Examples.oneDocumentJson Examples.utcRuntime
    Examples.longStatement rfl).2.2.2.2 rfl
  ⟨h.1, h.2.2 Examples.fifteenTransactions rfl⟩

end StatementParser
